import Mathlib

/-!
# Verification of the `lasergrid_render` batch-render pipeline

A shallow embedding, in Lean 4, of the core of the `pool_dataset_gen`
repository: the plan loader (`src/lasergrid_render/config.py`) and the
render pipeline (`src/lasergrid_render/render_pipeline.py`).

Python dataclasses become Lean structures; the mutable Blender scene
(`bpy.data` / `bpy.context`) becomes an explicit `Scene` value threaded
through the pipeline; host-application calls and log statements become
an explicit event trace; fallible loader code returns `Except`.
Numeric values that are Python floats are modelled as `Rat` so that all
definitions are executable and decidable.
-/

namespace LasergridRender

/-! ## Filesystem paths

`pathlib.Path` values are modelled as an absolute-flag plus a component
list.  `resolve()` normalises `..` components against either the process
working directory (for relative paths) or the path's own root.  `~`
expansion is not modelled (no path in the claims uses it).
-/

structure FPath where
  absolute : Bool
  components : List String
deriving Repr, DecidableEq

namespace FPath

/-- Append one path to another, as `pathlib`'s `/` operator: an absolute
right operand replaces the left one. -/
def join (p q : FPath) : FPath :=
  if q.absolute then q else ⟨p.absolute, p.components ++ q.components⟩

/-- Normalise a component list: `..` pops the previous component (and is
dropped at the root of an absolute path), `.` and empty components vanish. -/
def normComponents : List String → List String → List String
  | acc, [] => acc.reverse
  | acc, c :: rest =>
    if c = ".." then
      normComponents (acc.drop 1) rest
    else if c = "." ∨ c = "" then
      normComponents acc rest
    else
      normComponents (c :: acc) rest

/-- `Path.resolve()`: make the path absolute against the working
directory `cwd` and normalise `..`/`.` components. -/
def resolve (cwd p : FPath) : FPath :=
  let base := if p.absolute then p else cwd.join p
  ⟨base.absolute, normComponents [] base.components⟩

/-- `Path.parent`: drop the last component. -/
def parent (p : FPath) : FPath :=
  ⟨p.absolute, p.components.dropLast⟩

/-- Append a single file-name component, as `output_dir / f"{stem}{suffix}"`. -/
def child (p : FPath) (name : String) : FPath :=
  ⟨p.absolute, p.components ++ [name]⟩

end FPath

/-! ## Plan data model (`config.py` dataclasses) -/

/-- A Python scalar as seen by `float()`: `num` is any value `float()`
accepts (ints, floats, numeric strings are collapsed into their numeric
value); `other` is any value on which `float()` raises (a non-numeric
string, `None`, a nested sequence, ...). -/
inductive PyAtom where
  | num (v : Rat)
  | other
deriving Repr, DecidableEq

/-- A Python value supplied for a node-socket override (`value: Any`).
`isinstance(value, (tuple, list))` holds exactly for `seq`. -/
inductive PyVal where
  | atom (a : PyAtom)
  | seq (vs : List PyAtom)
deriving Repr, DecidableEq

/-- `float(a)` on a scalar. -/
def atomFloat : PyAtom → Option Rat
  | .num v => some v
  | .other => none

/-- `float(value)` on the whole override value: raises (returns `none`)
on tuples and lists. -/
def pyFloat : PyVal → Option Rat
  | .atom a => atomFloat a
  | .seq _ => none

abbrev Vec3 := Rat × Rat × Rat

/-- `NodeInputOverride`: a single material node socket override. -/
structure NodeInputOverride where
  material : String
  node : String
  socket : String
  value : PyVal
deriving Repr, DecidableEq

/-- `ObjectTranslation`: translates an existing object by an offset. -/
structure ObjectTranslation where
  name : String
  offset : Vec3
deriving Repr, DecidableEq

/-- `PrimitiveSpec`: adds a primitive mesh to the scene. -/
structure PrimitiveSpec where
  primitive : String
  name : Option String
  location : Vec3 := (0, 0, 0)
  rotation : Vec3 := (0, 0, 0)
  scale : Vec3 := (1, 1, 1)
  material : Option String := none
deriving Repr, DecidableEq

/-- `ObjectVisibilityOverride`: toggles viewport/render visibility for a
named object. -/
structure ObjectVisibilityOverride where
  name : String
  visible : Bool := true
deriving Repr, DecidableEq

/-- `CollectionVisibilityOverride`: toggles render visibility for a
collection. -/
structure CollectionVisibilityOverride where
  name : String
  visible : Bool := true
deriving Repr, DecidableEq

/-- `CameraInstruction`: explicit camera transform overrides. -/
structure CameraInstruction where
  location : Option Vec3 := none
  rotation_euler : Option Vec3 := none
  lens_mm : Option Rat := none
deriving Repr, DecidableEq

/-- `RenderSettings`: subset of render settings that can be overridden. -/
structure RenderSettings where
  engine : String := "CYCLES"
  samples : Int := 128
  resolution_x : Int := 1024
  resolution_y : Int := 1024
  use_denoise : Bool := true
  file_format : String := "PNG"
  color_mode : String := "RGB"
deriving Repr, DecidableEq

/-- `DEFAULT_RENDER_SETTINGS = RenderSettings()` (module-level constant). -/
def DEFAULT_RENDER_SETTINGS : RenderSettings := {}

/-- `VariationConfig`: a single render variation that mutates the scene
before rendering. -/
structure VariationConfig where
  name : String
  node_overrides : List NodeInputOverride := []
  translations : List ObjectTranslation := []
  additions : List PrimitiveSpec := []
  collection_visibility : List CollectionVisibilityOverride := []
  visibility : List ObjectVisibilityOverride := []
  camera : Option CameraInstruction := none
  render_settings : Option RenderSettings := none
deriving Repr, DecidableEq

/-- `RenderPlan`: top-level execution config. -/
structure RenderPlan where
  blend_path : FPath
  output_dir : FPath
  base_render_settings : RenderSettings
  camera_object : String := "Camera"
  variations : List VariationConfig := []
deriving Repr, DecidableEq

/-! ## Plan loader (`config.py` functions)

The YAML document is modelled already parsed, as typed payload records:
a `.get(key)` access becomes an `Option` field (`none` when the key is
absent), a required `entry[key]` access becomes a plain field (the
`KeyError` path for a missing required key is outside the claims), and
YAML scalars already coerced by `int(...)` / `bool(...)` / `float(...)`
are carried at their coerced type.  A field whose raw value is checked
for *truthiness* (`if payload.get("render_settings")`,
`if payload.get("camera")`) is modelled as `Option` with `none` covering
every falsy raw value (absent key, explicit null, empty mapping).
Loader failures (`PlanValidationError`) become `Except String`. -/

structure RenderSettingsPayload where
  engine : Option String := none
  samples : Option Int := none
  resolution_x : Option Int := none
  resolution_y : Option Int := none
  use_denoise : Option Bool := none
  file_format : Option String := none
  color_mode : Option String := none
deriving Repr, DecidableEq

structure NodeOverridePayload where
  material : String
  node : String
  socket : String
  value : PyVal
deriving Repr, DecidableEq

structure TranslationPayload where
  name : String
  offset : Option (List Rat) := none
deriving Repr, DecidableEq

structure AdditionPayload where
  primitive : Option String := none
  name : Option String := none
  location : Option (List Rat) := none
  rotation : Option (List Rat) := none
  scale : Option (List Rat) := none
  material : Option String := none
deriving Repr, DecidableEq

structure VisibilityPayload where
  name : String
  visible : Option Bool := none
deriving Repr, DecidableEq

structure CameraPayload where
  location : Option (List Rat) := none
  rotation_euler : Option (List Rat) := none
  lens_mm : Option Rat := none
deriving Repr, DecidableEq

structure VariationPayload where
  name : Option String := none
  node_overrides : List NodeOverridePayload := []
  translations : List TranslationPayload := []
  additions : List AdditionPayload := []
  collection_visibility : List VisibilityPayload := []
  visibility : List VisibilityPayload := []
  camera : Option CameraPayload := none
  render_settings : Option RenderSettingsPayload := none
deriving Repr, DecidableEq

/-- The parsed top-level plan document.  `render_settings` uses
`raw.get("render_settings", {})` (no truthiness check), so an absent key
and an empty mapping coincide and the field is a plain payload defaulting
to the empty one. -/
structure PlanDoc where
  blend_path : Option FPath := none
  output_dir : Option FPath := none
  render_settings : RenderSettingsPayload := {}
  camera_object : Option String := none
  variations : List VariationPayload := []
deriving Repr, DecidableEq

/-- Render a path for an error message. -/
def FPath.toStr (p : FPath) : String :=
  (if p.absolute then "/" else "") ++ String.intercalate "/" p.components

/-- `_build_render_settings`: each field falls back to the module-level
`DEFAULT_RENDER_SETTINGS`, not to the plan's base settings. -/
def _build_render_settings (payload : RenderSettingsPayload) : RenderSettings :=
  { engine := payload.engine.getD DEFAULT_RENDER_SETTINGS.engine
    samples := payload.samples.getD DEFAULT_RENDER_SETTINGS.samples
    resolution_x := payload.resolution_x.getD DEFAULT_RENDER_SETTINGS.resolution_x
    resolution_y := payload.resolution_y.getD DEFAULT_RENDER_SETTINGS.resolution_y
    use_denoise := payload.use_denoise.getD DEFAULT_RENDER_SETTINGS.use_denoise
    file_format := payload.file_format.getD DEFAULT_RENDER_SETTINGS.file_format
    color_mode := payload.color_mode.getD DEFAULT_RENDER_SETTINGS.color_mode }

/-- `_as_tuple`: requires exactly 3 numeric components. -/
def _as_tuple (value : Option (List Rat)) : Except String Vec3 :=
  match value with
  | none => .error "Expected tuple, got None"
  | some [a, b, c] => .ok (a, b, c)
  | some vs => .error ("Expected 3 values, received " ++ toString vs.length)

/-- `f"variation_{idx:03d}"`: zero-pad to at least three digits. -/
def pad3 (n : Nat) : String :=
  if n < 10 then "00" ++ toString n
  else if n < 100 then "0" ++ toString n
  else toString n

/-- `payload.get("name") or f"variation_{idx:03d}"`: a falsy name (absent
or empty string) is replaced by the generated one. -/
def variationName (name : Option String) (idx : Nat) : String :=
  match name with
  | some s => if s = "" then "variation_" ++ pad3 idx else s
  | none => "variation_" ++ pad3 idx

/-- `_build_variation`: builds one `VariationConfig` from its payload and
its index in the document's `variations` list. -/
def _build_variation (payload : VariationPayload) (idx : Nat) :
    Except String VariationConfig := do
  let name := variationName payload.name idx
  let node_overrides := payload.node_overrides.map fun entry =>
    NodeInputOverride.mk entry.material entry.node entry.socket entry.value
  let translations ← payload.translations.mapM fun entry => do
    let off ← _as_tuple (some (entry.offset.getD [0, 0, 0]))
    pure (ObjectTranslation.mk entry.name off)
  let additions ← payload.additions.mapM fun entry => do
    let location ← _as_tuple (some (entry.location.getD [0, 0, 0]))
    let rotation ← _as_tuple (some (entry.rotation.getD [0, 0, 0]))
    let scale ← _as_tuple (some (entry.scale.getD [1, 1, 1]))
    pure (PrimitiveSpec.mk (entry.primitive.getD "cube") entry.name
      location rotation scale entry.material)
  let collection_visibility := payload.collection_visibility.map fun entry =>
    CollectionVisibilityOverride.mk entry.name (entry.visible.getD true)
  let visibility := payload.visibility.map fun entry =>
    ObjectVisibilityOverride.mk entry.name (entry.visible.getD true)
  let camera ← match payload.camera with
    | none => pure none
    | some cp => do
      let location ← match cp.location with
        | none => pure none
        | some l => (_as_tuple (some l)).map some
      let rotation_euler ← match cp.rotation_euler with
        | none => pure none
        | some r => (_as_tuple (some r)).map some
      pure (some (CameraInstruction.mk location rotation_euler cp.lens_mm))
  let render_settings := payload.render_settings.map _build_render_settings
  pure { name, node_overrides, translations, additions,
         collection_visibility, visibility, camera, render_settings }

/-- `load_plan_from_file`: loads a parsed plan document into a
`RenderPlan`.  `fs` tells which paths exist on disk and `cwd` is the
process working directory (used by `Path.resolve()` only for relative
inputs). -/
def load_plan_from_file (fs : FPath → Bool) (cwd : FPath) (plan_path : FPath)
    (blend_override : Option FPath) (output_override : Option FPath)
    (doc : PlanDoc) : Except String RenderPlan := do
  let path := FPath.resolve cwd plan_path
  if ¬ fs path then
    throw ("Plan file does not exist: " ++ path.toStr)
  let blend0 := blend_override.getD (doc.blend_path.getD ⟨false, []⟩)
  let blend_path :=
    if blend0.absolute then blend0 else FPath.resolve cwd (path.parent.join blend0)
  if ¬ fs blend_path then
    throw ("Blend file cannot be found: " ++ blend_path.toStr)
  let output0 := output_override.getD (doc.output_dir.getD ⟨false, ["render_output"]⟩)
  let output_dir :=
    if output0.absolute then output0 else FPath.resolve cwd (path.parent.join output0)
  let base_render_settings := _build_render_settings doc.render_settings
  let camera_object := doc.camera_object.getD "Camera"
  let variations ← doc.variations.enum.mapM fun p => _build_variation p.2 p.1
  pure { blend_path, output_dir, base_render_settings, camera_object, variations }

/-! ## Host scene model

The live Blender state touched by `render_pipeline.py` is modelled as an
explicit `Scene` value: `bpy.data.objects` / `.materials` /
`.collections` become association lists looked up by name (`.get(name)`
returns the first entry with that name), `bpy.context.scene` render
properties become record fields, and `hasattr` probes become `Option`
fields.  Host-application calls and `LOGGER` statements become an
explicit `Event` trace. -/

/-- A node socket's `default_value`: vector-shaped values are the ones
satisfying `isinstance(default_value, (tuple, list))`. -/
inductive SocketValue where
  | scalar (v : Rat)
  | vector (vs : List Rat)
deriving Repr, DecidableEq

/-- A node socket; `default_value := none` models a socket without a
`default_value` attribute. -/
structure BSocket where
  name : String
  default_value : Option SocketValue := none
deriving Repr, DecidableEq

structure BNode where
  name : String
  inputs : List BSocket := []
  outputs : List BSocket := []
deriving Repr, DecidableEq

/-- A material; `node_tree := none` models a null `node_tree`. -/
structure BMaterial where
  name : String
  use_nodes : Bool := true
  node_tree : Option (List BNode) := none
deriving Repr, DecidableEq

/-- An object's `data` block: the camera lens and the material slots.
`none` on the object models a null `data`. -/
structure ObjectData where
  lens : Rat := 50
  materials : List String := []
deriving Repr, DecidableEq

structure BObject where
  name : String
  location : Vec3 := (0, 0, 0)
  rotation_euler : Vec3 := (0, 0, 0)
  scale : Vec3 := (1, 1, 1)
  hide_render : Bool := false
  hide_viewport : Bool := false
  /-- Whether the object has a `hide_set` method (its absence raises
  `AttributeError`, caught by the pipeline). -/
  has_hide_set : Bool := true
  /-- The per-view-layer hide state written by `obj.hide_set(...)`. -/
  hidden : Bool := false
  objType : String := "MESH"
  data : Option ObjectData := none
deriving Repr, DecidableEq

structure BCollection where
  name : String
  hide_viewport : Bool := false
  hide_render : Bool := false
deriving Repr, DecidableEq

/-- A node of a view layer's layer-collection tree, wrapping the data
collection of the stored name. -/
inductive LayerCollection where
  | node (collection : String) (hide_viewport : Bool) (exclude : Bool)
      (children : List LayerCollection)

def LayerCollection.collectionName : LayerCollection → String
  | .node c _ _ _ => c

structure ViewLayer where
  layer_collection : LayerCollection

structure SceneRenderProps where
  engine : String := "CYCLES"
  filepath : String := ""
  file_format : String := "PNG"
  color_mode : String := "RGB"
  resolution_x : Int := 0
  resolution_y : Int := 0
deriving Repr, DecidableEq

structure CyclesProps where
  samples : Int := 0
  use_denoising : Bool := false
deriving Repr, DecidableEq

structure EeveeProps where
  taa_samples : Int := 0
deriving Repr, DecidableEq

/-- The whole mutable host state; `cycles := none` / `eevee := none`
model a failing `hasattr(scene, ...)` probe. -/
structure Scene where
  objects : List BObject := []
  materials : List BMaterial := []
  collections : List BCollection := []
  view_layers : List ViewLayer := []
  render : SceneRenderProps := {}
  cycles : Option CyclesProps := none
  eevee : Option EeveeProps := none
  active_object : Option String := none

inductive LogLevel where
  | info
  | warning
  | error
deriving Repr, DecidableEq

/-- The six mutation categories the pipeline applies. -/
inductive MCat where
  | nodeOverride
  | collectionVis
  | objectVis
  | translation
  | addition
  | camera
deriving Repr, DecidableEq

/-- One observable step of a run: a log statement, a filesystem call, or
a host-application call. -/
inductive Event where
  | log (lvl : LogLevel) (msg : String)
  | mkdir (dir : FPath) (parents : Bool) (exist_ok : Bool)
  | openMainfile (path : FPath)
  | hostMutate (cat : MCat) (target : String)
  | renderConfigCall (filepath : String)
  | renderCall
deriving Repr, DecidableEq

/-- `bpy.data.objects.get(name)`. -/
def findObject (s : Scene) (name : String) : Option BObject :=
  s.objects.find? fun ob => ob.name == name

/-- `bpy.data.materials.get(name)`. -/
def findMaterial (s : Scene) (name : String) : Option BMaterial :=
  s.materials.find? fun m => m.name == name

/-- `bpy.data.collections.get(name)`. -/
def findCollection (s : Scene) (name : String) : Option BCollection :=
  s.collections.find? fun c => c.name == name

/-- Replace the first list entry satisfying `p` (in-place mutation of the
object returned by a `.get(name)` / `.find?` lookup). -/
def updateFirst (p : α → Bool) (f : α → α) : List α → List α
  | [] => []
  | x :: xs => if p x then f x :: xs else x :: updateFirst p f xs

/-- Update the first object of the given name. -/
def setObj (s : Scene) (name : String) (f : BObject → BObject) : Scene :=
  { s with objects := updateFirst (fun ob => ob.name == name) f s.objects }

/-- Componentwise vector addition (the `zip("xyz", offset)` loop). -/
def vadd (a b : Vec3) : Vec3 :=
  (a.1 + b.1, a.2.1 + b.2.1, a.2.2 + b.2.2)

/-- Run a loop body over a list, threading the scene and concatenating
the emitted events. -/
def applyList (step : Scene → α → Scene × List Event) :
    Scene → List α → Scene × List Event
  | s, [] => (s, [])
  | s, x :: xs =>
    let r := step s x
    let rest := applyList step r.1 xs
    (rest.1, r.2 ++ rest.2)

/-! ## Mutation appliers (`render_pipeline.py`) -/

/-- Python's `str.lower()` (modelled for ASCII characters, which covers
every format and primitive-kind string the pipeline handles). -/
def lowerChar (c : Char) : Char :=
  if 65 ≤ c.toNat ∧ c.toNat ≤ 90 then Char.ofNat (c.toNat + 32) else c

def strLower (s : String) : String := String.mk (s.toList.map lowerChar)

/-- Modelled from the external `pathvalidate.sanitize_filename(name,
replacement_text="_")` call: every character that is invalid in a file
name (path separators, reserved punctuation, control characters) is
replaced by an underscore. -/
def invalidFilenameChar (c : Char) : Bool :=
  c ∈ ['/', '\\', ':', '*', '?', '"', '<', '>', '|'] || c.toNat < 32

def sanitize_filename (name : String) : String :=
  String.mk (name.toList.map fun c => if invalidFilenameChar c then '_' else c)

/-- The body of the `try:` block of `_apply_node_overrides`: coerce the
override value against the socket's current `default_value` shape.  A
`float()` failure and the host's rejection of a sequence whose length
does not match the socket's raise; both are caught by the `except`. -/
def coerceForSocket (dv : SocketValue) (value : PyVal) : Except String SocketValue :=
  match dv with
  | .vector comps =>
    match value with
    | .seq items =>
      match items.mapM atomFloat with
      | some floats =>
        if floats.length = comps.length then .ok (.vector floats)
        else .error "sequence length does not match the socket"
      | none => .error "could not convert value to float"
    | .atom a =>
      match atomFloat a with
      | some f => .ok (.vector (comps.map fun _ => f))
      | none => .error "could not convert value to float"
  | .scalar _ =>
    match pyFloat value with
    | some f => .ok (.scalar f)
    | none => .error "could not convert value to float"

/-- Write a new `default_value` into the socket found by
`node.inputs.get(socket) or node.outputs.get(socket)` of the named node
of the named material. -/
def setSocket (o : NodeInputOverride) (v : SocketValue) (n : BNode) : BNode :=
  if (n.inputs.find? fun sk => sk.name == o.socket).isSome then
    { n with
      inputs :=
        updateFirst (fun sk => sk.name == o.socket)
          (fun sk => { sk with default_value := some v }) n.inputs }
  else
    { n with
      outputs :=
        updateFirst (fun sk => sk.name == o.socket)
          (fun sk => { sk with default_value := some v }) n.outputs }

def setSocketValue (s : Scene) (o : NodeInputOverride) (v : SocketValue) : Scene :=
  { s with
    materials :=
      updateFirst (fun m => m.name == o.material)
        (fun m =>
          { m with
            node_tree :=
              m.node_tree.map fun nodes =>
                updateFirst (fun n => n.name == o.node) (setSocket o v) nodes })
        s.materials }

/-- One iteration of the `_apply_node_overrides` loop. -/
def nodeOverrideStep (dry : Bool) (s : Scene) (o : NodeInputOverride) :
    Scene × List Event :=
  if dry then
    (s, [.log .info ("[dry-run] Override " ++ o.material ++ "/" ++ o.node
      ++ "." ++ o.socket)])
  else
    match findMaterial s o.material with
    | none => (s, [.log .warning ("Material " ++ o.material ++ " not found")])
    | some material =>
      match material.node_tree with
      | none => (s, [.log .warning ("Material " ++ o.material ++ " does not use nodes")])
      | some nodes =>
        if ¬ material.use_nodes then
          (s, [.log .warning ("Material " ++ o.material ++ " does not use nodes")])
        else
          match nodes.find? (fun n => n.name == o.node) with
          | none => (s, [.log .warning ("Node " ++ o.node ++ " missing in material "
              ++ o.material)])
          | some node =>
            match (node.inputs.find? fun sk => sk.name == o.socket) <|>
                (node.outputs.find? fun sk => sk.name == o.socket) with
            | none => (s, [.log .warning ("Socket " ++ o.socket ++ " missing on node "
                ++ o.node ++ " in material " ++ o.material)])
            | some socket =>
              match socket.default_value with
              | none => (s, [.log .warning ("Socket " ++ o.socket
                  ++ " has no default_value attribute")])
              | some dv =>
                match coerceForSocket dv o.value with
                | .ok newVal =>
                  (setSocketValue s o newVal,
                   [.hostMutate .nodeOverride (o.material ++ "/" ++ o.node ++ "." ++ o.socket)])
                | .error msg =>
                  (s, [.log .error ("Failed to override node value: " ++ msg)])

def _apply_node_overrides (dry : Bool) (s : Scene) (overrides : List NodeInputOverride) :
    Scene × List Event :=
  applyList (nodeOverrideStep dry) s overrides

mutual

/-- `_iter_layer_collections`: the iterative stack traversal
(`stack.pop()` from the end, `stack.extend(children)`) yields each node
before its subtrees and visits children in reverse order. -/
def dfsLC : LayerCollection → List LayerCollection
  | .node c hv ex children => .node c hv ex children :: dfsRev children

/-- Companion of `dfsLC`: traverse a child list from its last element to
its first. -/
def dfsRev : List LayerCollection → List LayerCollection
  | [] => []
  | c :: cs => dfsRev cs ++ dfsLC c

end

/-- Whether some node of the layer-collection tree wraps the named
collection. -/
def lcContains (name : String) (root : LayerCollection) : Bool :=
  (dfsLC root).any fun lc => lc.collectionName == name

mutual

/-- Set the hide flags of every layer-collection node wrapping the named
collection. -/
def updateLC (name : String) (hide : Bool) : LayerCollection → LayerCollection
  | .node c hv ex children =>
    if c == name then .node c hide hide (updateLCs name hide children)
    else .node c hv ex (updateLCs name hide children)

def updateLCs (name : String) (hide : Bool) : List LayerCollection → List LayerCollection
  | [] => []
  | c :: cs => updateLC name hide c :: updateLCs name hide cs

end

/-- One iteration of the `_apply_collection_visibility` loop: toggle the
data collection's own flags when it exists, then walk every view layer's
layer-collection tree and toggle every wrapping node (and, through the
aliased `layer_collection.collection`, the data collection again). -/
def collectionVisStep (dry : Bool) (s : Scene) (o : CollectionVisibilityOverride) :
    Scene × List Event :=
  let target_state := if o.visible then "visible" else "hidden"
  if dry then
    (s, [.log .info ("[dry-run] Would set collection " ++ o.name
      ++ " visibility -> " ++ target_state)])
  else
    let hide := !o.visible
    let setFlags : BCollection → BCollection := fun c =>
      { c with hide_viewport := hide, hide_render := hide }
    let r1 : Scene × List Event :=
      match findCollection s o.name with
      | none => (s, [.log .warning ("Collection " ++ o.name
          ++ " not found for visibility override")])
      | some _ =>
        ({ s with
           collections :=
             updateFirst (fun c => c.name == o.name) setFlags s.collections },
         [.hostMutate .collectionVis o.name])
    let s1 := r1.1
    let anyMatch := s1.view_layers.any fun vl => lcContains o.name vl.layer_collection
    let s2 : Scene :=
      { s1 with
        view_layers :=
          s1.view_layers.map fun vl =>
            ViewLayer.mk (updateLC o.name hide vl.layer_collection)
        collections :=
          if anyMatch then
            updateFirst (fun c => c.name == o.name) setFlags s1.collections
          else s1.collections }
    let layerEvents : List Event := s1.view_layers.flatMap fun vl =>
      (dfsLC vl.layer_collection).filterMap fun lc =>
        if lc.collectionName == o.name then some (.hostMutate .collectionVis o.name)
        else none
    (s2, r1.2 ++ layerEvents)

def _apply_collection_visibility (dry : Bool) (s : Scene)
    (overrides : List CollectionVisibilityOverride) : Scene × List Event :=
  applyList (collectionVisStep dry) s overrides

/-- One iteration of the `_apply_visibility_overrides` loop: set both
hide flags, then `hide_set` when available (its absence raises
`AttributeError`, answered by re-setting `hide_viewport`). -/
def objectVisStep (dry : Bool) (s : Scene) (o : ObjectVisibilityOverride) :
    Scene × List Event :=
  let target_state := if o.visible then "visible" else "hidden"
  if dry then
    (s, [.log .info ("[dry-run] Would set " ++ o.name ++ " visibility -> "
      ++ target_state)])
  else
    match findObject s o.name with
    | none => (s, [.log .warning ("Object " ++ o.name
        ++ " not found for visibility override")])
    | some _ =>
      let hide := !o.visible
      (setObj s o.name (fun ob =>
        if ob.has_hide_set then
          { ob with hide_render := hide, hide_viewport := hide, hidden := hide }
        else
          { ob with hide_render := hide, hide_viewport := hide }),
       [.hostMutate .objectVis o.name])

def _apply_visibility_overrides (dry : Bool) (s : Scene)
    (overrides : List ObjectVisibilityOverride) : Scene × List Event :=
  applyList (objectVisStep dry) s overrides

/-- One iteration of the `_translate_objects` loop: add the offset to the
object's current location, component by component. -/
def translateStep (dry : Bool) (s : Scene) (t : ObjectTranslation) :
    Scene × List Event :=
  if dry then
    (s, [.log .info ("[dry-run] Would translate " ++ t.name)])
  else
    match findObject s t.name with
    | none => (s, [.log .warning ("Object " ++ t.name ++ " not found")])
    | some _ =>
      (setObj s t.name (fun ob => { ob with location := vadd ob.location t.offset }),
       [.hostMutate .translation t.name])

def _translate_objects (dry : Bool) (s : Scene) (translations : List ObjectTranslation) :
    Scene × List Event :=
  applyList (translateStep dry) s translations

/-- The primitive kinds for which `bpy.ops.mesh` has a
`primitive_<kind>_add` operator (modelled host capability). -/
def supportedPrimitives : List String :=
  ["cube", "uv_sphere", "ico_sphere", "cylinder", "cone", "plane",
   "torus", "circle", "grid", "monkey"]

/-- Material slot assignment of `_add_primitives`: write slot 0 when a
slot exists, append a new slot otherwise. -/
def assignSlot0 (slots : List String) (m : String) : List String :=
  match slots with
  | [] => [m]
  | _ :: rest => m :: rest

/-- One iteration of the `_add_primitives` loop.  The operator creates a
mesh object at the requested location which becomes the active object
(the defensive `active_object is None` branch cannot fire in the model);
its host-chosen default name is modelled as the lowercased kind. -/
def addPrimitiveStep (dry : Bool) (s : Scene) (a : PrimitiveSpec) :
    Scene × List Event :=
  if dry then
    (s, [.log .info ("[dry-run] Would add " ++ a.primitive ++ " named "
      ++ (a.name.getD "None"))])
  else
    let op := strLower a.primitive
    if ¬ supportedPrimitives.contains op then
      (s, [.log .warning ("Unsupported primitive type: " ++ a.primitive)])
    else
      let obj0 : BObject :=
        { name := op, location := a.location, objType := "MESH",
          data := some { lens := 0, materials := [] } }
      let finalName :=
        match a.name with
        | some n => if n = "" then op else n
        | none => op
      let obj1 :=
        { obj0 with
          name := finalName
          rotation_euler := a.rotation
          scale := a.scale }
      let creation : Event := .hostMutate .addition a.primitive
      let addObj : Scene → BObject → Scene := fun sc ob =>
        { sc with objects := sc.objects ++ [ob], active_object := some ob.name }
      match a.material with
      | none => (addObj s obj1, [creation])
      | some m =>
        if m = "" then (addObj s obj1, [creation])
        else
          match findMaterial s m with
          | none =>
            (addObj s obj1,
             [creation, .log .warning ("Material " ++ m ++ " not found for new object")])
          | some _ =>
            let obj2 :=
              { obj1 with
                data :=
                  obj1.data.map fun d =>
                    { d with materials := assignSlot0 d.materials m } }
            (addObj s obj2, [creation])

def _add_primitives (dry : Bool) (s : Scene) (additions : List PrimitiveSpec) :
    Scene × List Event :=
  applyList (addPrimitiveStep dry) s additions

/-- `_configure_camera`: apply the provided fields onto the named camera
object.  A present 3-tuple is always truthy; `instruction.lens_mm` is
truthy only when non-zero, and the lens is written only when the object's
`type` is `"CAMERA"` and its `data` is non-null. -/
def _configure_camera (dry : Bool) (camera_name : String)
    (instruction : CameraInstruction) (s : Scene) : Scene × List Event :=
  if dry then
    (s, [.log .info ("[dry-run] Would update camera " ++ camera_name)])
  else
    match findObject s camera_name with
    | none => (s, [.log .warning ("Camera object " ++ camera_name ++ " not found")])
    | some camera_obj =>
      let r1 : Scene × List Event :=
        match instruction.location with
        | some loc =>
          (setObj s camera_name (fun ob => { ob with location := loc }),
           [.hostMutate .camera (camera_name ++ ".location")])
        | none => (s, [])
      let r2 : Scene × List Event :=
        match instruction.rotation_euler with
        | some rot =>
          (setObj r1.1 camera_name (fun ob => { ob with rotation_euler := rot }),
           [.hostMutate .camera (camera_name ++ ".rotation_euler")])
        | none => (r1.1, [])
      let r3 : Scene × List Event :=
        match instruction.lens_mm with
        | some lens =>
          if lens != 0 && camera_obj.objType == "CAMERA" && camera_obj.data.isSome then
            (setObj r2.1 camera_name (fun ob =>
              { ob with data := ob.data.map fun d => { d with lens := lens } }),
             [.hostMutate .camera (camera_name ++ ".lens")])
          else (r2.1, [])
        | none => (r2.1, [])
      (r3.1, r1.2 ++ r2.2 ++ r3.2)

/-- `_configure_render_settings`: engine, output path, format, color
mode and resolution are always written; samples and denoise only for the
recognized engine strings whose scene attribute exists. -/
def _configure_render_settings (dry : Bool) (settings : RenderSettings)
    (render_path : FPath) (s : Scene) : Scene × List Event :=
  if dry then
    (s, [.log .info ("[dry-run] Would render to " ++ render_path.toStr)])
  else
    let s1 : Scene :=
      { s with
        render :=
          { engine := settings.engine
            filepath := render_path.toStr
            file_format := settings.file_format
            color_mode := settings.color_mode
            resolution_x := settings.resolution_x
            resolution_y := settings.resolution_y } }
    let s2 : Scene :=
      if settings.engine == "CYCLES" && s1.cycles.isSome then
        { s1 with
          cycles :=
            s1.cycles.map fun c =>
              { c with samples := settings.samples
                       use_denoising := settings.use_denoise } }
      else if settings.engine == "BLENDER_EEVEE" && s1.eevee.isSome then
        { s1 with
          eevee :=
            s1.eevee.map fun e => { e with taa_samples := settings.samples } }
      else s1
    (s2, [.renderConfigCall render_path.toStr])

/-- `_perform_render`: one still-image render call. -/
def _perform_render (dry : Bool) (s : Scene) : Scene × List Event :=
  if dry then (s, [.log .info "[dry-run] Skipping Blender render call"])
  else (s, [.renderCall])

/-- `_reload_scene`: replace the live scene with the contents `load` of
the base blend file. -/
def _reload_scene (load : Scene) (blend_path : FPath) (dry : Bool) (s : Scene) :
    Scene × List Event :=
  if dry then
    (s, [.log .info ("[dry-run] Would reload " ++ blend_path.toStr)])
  else
    (load, [.log .info ("Loading blend file " ++ blend_path.toStr),
            .openMainfile blend_path])

/-- `_build_render_path`: sanitized stem plus an extension derived from
the declared format. -/
def _build_render_path (output_dir : FPath) (variation_name : String)
    (settings : RenderSettings) : FPath :=
  let sanitized := sanitize_filename variation_name
  let extension := strLower settings.file_format
  let suffix :=
    if extension ∈ ["png", "jpeg", "jpg", "tiff", "open_exr", "exr"] then
      if extension ∈ ["open_exr", "exr"] then ".exr" else "." ++ extension
    else ".png"
  output_dir.child (sanitized ++ suffix)

/-- `variation.render_settings or plan.base_render_settings`: the
settings a variation renders with. -/
def effectiveRenderSettings (plan : RenderPlan) (variation : VariationConfig) :
    RenderSettings :=
  variation.render_settings.getD plan.base_render_settings

/-- The body of the `for variation in plan.variations:` loop: reload,
apply the six mutation categories in order, then configure and render. -/
def variationStep (load : Scene) (plan : RenderPlan) (dry : Bool) (s : Scene)
    (variation : VariationConfig) : Scene × List Event :=
  let e0 : List Event := [.log .info ("=== Variation: " ++ variation.name ++ " ===")]
  let r1 := _reload_scene load plan.blend_path dry s
  let r2 := _apply_node_overrides dry r1.1 variation.node_overrides
  let r3 := _apply_collection_visibility dry r2.1 variation.collection_visibility
  let r4 := _apply_visibility_overrides dry r3.1 variation.visibility
  let r5 := _translate_objects dry r4.1 variation.translations
  let r6 := _add_primitives dry r5.1 variation.additions
  let r7 : Scene × List Event :=
    match variation.camera with
    | some cam => _configure_camera dry plan.camera_object cam r6.1
    | none => (r6.1, [])
  let render_settings := effectiveRenderSettings plan variation
  let render_path := _build_render_path plan.output_dir variation.name render_settings
  let r8 := _configure_render_settings dry render_settings render_path r7.1
  let r9 := _perform_render dry r8.1
  (r9.1, e0 ++ r1.2 ++ r2.2 ++ r3.2 ++ r4.2 ++ r5.2 ++ r6.2 ++ r7.2 ++ r8.2 ++ r9.2)

/-- `execute_render_plan`: warn and stop on an empty plan; otherwise
create the output directory and run every variation in document order.
(`_configure_logging` only installs a log handler and has no modelled
effect.)  `load` is the content of the plan's base blend file and `s0`
the host state the run starts from. -/
def execute_render_plan (load : Scene) (plan : RenderPlan) (dry_run : Bool)
    (s0 : Scene) : Scene × List Event :=
  if plan.variations.isEmpty then
    (s0, [.log .warning "No variations defined; nothing to render."])
  else
    let r := applyList (fun s v => variationStep load plan dry_run s v) s0 plan.variations
    (r.1, .mkdir plan.output_dir true true :: r.2)

/-! ## Observation helpers for the theorems -/

/-- The kind of an event, with the mutation category attached. -/
inductive EKind where
  | klog
  | kmkdir
  | kopen
  | kmut (c : MCat)
  | kconfig
  | krender
deriving Repr, DecidableEq

def ekind : Event → EKind
  | .log _ _ => .klog
  | .mkdir _ _ _ => .kmkdir
  | .openMainfile _ => .kopen
  | .hostMutate c _ => .kmut c
  | .renderConfigCall _ => .kconfig
  | .renderCall => .krender

/-- The mutation category of an event, when it is a host mutation. -/
def mutCat : Event → Option MCat
  | .hostMutate c _ => some c
  | _ => none

/-- The position of a category in the fixed application pipeline. -/
def catRank : MCat → Nat
  | .nodeOverride => 0
  | .collectionVis => 1
  | .objectVis => 2
  | .translation => 3
  | .addition => 4
  | .camera => 5

/-- Whether an event is a call into the host application (scene reload,
mutation, render configuration, or render). -/
def hostCall (e : Event) : Bool :=
  match ekind e with
  | .kopen => true
  | .kmut _ => true
  | .kconfig => true
  | .krender => true
  | _ => false

def isMkdir : Event → Bool
  | .mkdir _ _ _ => true
  | _ => false

def isRender : Event → Bool
  | .renderCall => true
  | _ => false

/-- The chain of host lookups `_apply_node_overrides` performs before its
`try:` block, as a pure read: the `default_value` of the addressed
socket, or `none` as soon as any link is missing. -/
def socketLookup (s : Scene) (o : NodeInputOverride) : Option SocketValue :=
  match findMaterial s o.material with
  | none => none
  | some material =>
    match material.node_tree with
    | none => none
    | some nodes =>
      if ¬ material.use_nodes then none
      else
        match nodes.find? (fun n => n.name == o.node) with
        | none => none
        | some node =>
          match (node.inputs.find? fun sk => sk.name == o.socket) <|>
              (node.outputs.find? fun sk => sk.name == o.socket) with
          | none => none
          | some socket => socket.default_value

/-- The log trace a dry run of one variation is expected to produce: one
descriptive line per mutation of the variation, in application-pipeline
order, bracketed by the variation header, the reload line, the settings
line and the skipped-render line. -/
def dryRunVariationTrace (plan : RenderPlan) (v : VariationConfig) : List Event :=
  [.log .info ("=== Variation: " ++ v.name ++ " ===")]
  ++ [.log .info ("[dry-run] Would reload " ++ plan.blend_path.toStr)]
  ++ (v.node_overrides.map fun o =>
      .log .info ("[dry-run] Override " ++ o.material ++ "/" ++ o.node ++ "." ++ o.socket))
  ++ (v.collection_visibility.map fun o =>
      .log .info ("[dry-run] Would set collection " ++ o.name ++ " visibility -> "
        ++ (if o.visible then "visible" else "hidden")))
  ++ (v.visibility.map fun o =>
      .log .info ("[dry-run] Would set " ++ o.name ++ " visibility -> "
        ++ (if o.visible then "visible" else "hidden")))
  ++ (v.translations.map fun t => .log .info ("[dry-run] Would translate " ++ t.name))
  ++ (v.additions.map fun a =>
      .log .info ("[dry-run] Would add " ++ a.primitive ++ " named " ++ (a.name.getD "None")))
  ++ (match v.camera with
      | some _ => [Event.log .info ("[dry-run] Would update camera " ++ plan.camera_object)]
      | none => [])
  ++ [.log .info ("[dry-run] Would render to "
      ++ (_build_render_path plan.output_dir v.name (effectiveRenderSettings plan v)).toStr)]
  ++ [.log .info "[dry-run] Skipping Blender render call"]

/-- The merge rule the spec claims for a variation's `render_settings`
mapping, with the inheritance source as an explicit parameter: each
absent field is inherited from `base` field-by-field. -/
def specMergeRenderSettings (base : RenderSettings) (p : RenderSettingsPayload) :
    RenderSettings :=
  { engine := p.engine.getD base.engine
    samples := p.samples.getD base.samples
    resolution_x := p.resolution_x.getD base.resolution_x
    resolution_y := p.resolution_y.getD base.resolution_y
    use_denoise := p.use_denoise.getD base.use_denoise
    file_format := p.file_format.getD base.file_format
    color_mode := p.color_mode.getD base.color_mode }

/-- The extension rule the code actually implements, written as a
standalone function of the declared format. -/
def specSuffix (file_format : String) : String :=
  let extension := strLower file_format
  if extension = "open_exr" ∨ extension = "exr" then ".exr"
  else if extension = "png" ∨ extension = "jpeg" ∨ extension = "jpg" ∨ extension = "tiff" then
    "." ++ extension
  else ".png"

/-! ## Concrete fixtures used by witnesses and counterexamples -/

/-- A scene holding a camera object, as Blender would present it. -/
def camScene : Scene :=
  { objects := [{ name := "Camera", objType := "CAMERA", data := some { lens := 50 } }] }

/-- One shader node with a scalar-valued input socket. -/
def sampleNode : BNode :=
  { name := "N", inputs := [{ name := "S", default_value := some (.scalar 1) }] }

/-- One node-based material holding `sampleNode`. -/
def sampleMaterial : BMaterial :=
  { name := "Mat", use_nodes := true, node_tree := some [sampleNode] }

/-- A small scene with two objects and one node-based material. -/
def sampleScene : Scene :=
  { objects := [{ name := "Cube" }, { name := "Light" }]
    materials := [sampleMaterial]
    cycles := some {} }

/-- A small two-variation plan. -/
def samplePlan : RenderPlan :=
  { blend_path := ⟨true, ["scenes", "base.blend"]⟩
    output_dir := ⟨true, ["out"]⟩
    base_render_settings := {}
    variations :=
      [{ name := "v1"
         translations := [{ name := "Cube", offset := (1, 2, 3) }]
         visibility := [{ name := "Light", visible := false }] },
       { name := "v2" }] }

/-! ## General lemmas about the pipeline combinators -/

theorem applyList_events_forall {α : Type} {P : Event → Prop}
    (step : Scene → α → Scene × List Event)
    (h : ∀ s x, ∀ e ∈ (step s x).2, P e) :
    ∀ s (l : List α), ∀ e ∈ (applyList step s l).2, P e := by
  intro s l
  induction l generalizing s with
  | nil => simp [applyList]
  | cons x xs ih =>
    intro e he
    simp only [applyList, List.mem_append] at he
    rcases he with he | he
    · exact h s x e he
    · exact ih _ e he

theorem flatMap_singleton_map {α β : Type} (g : α → β) (l : List α) :
    (l.flatMap fun x => [g x]) = l.map g := by
  induction l with
  | nil => rfl
  | cons x xs ih => simp [List.flatMap_cons, ih]

theorem applyList_dry {α : Type} (step : Scene → α → Scene × List Event)
    (f : α → List Event) (h : ∀ s x, step s x = (s, f x)) :
    ∀ s (l : List α), applyList step s l = (s, l.flatMap f) := by
  intro s l
  induction l generalizing s with
  | nil => simp [applyList]
  | cons x xs ih => simp [applyList, h, ih]

theorem applyList_state_indep {α : Type} {step : Scene → α → Scene × List Event}
    (h : ∀ s₁ s₂ x, step s₁ x = step s₂ x) (canon : Scene) :
    ∀ s (l : List α), (applyList step s l).2 = l.flatMap fun x => (step canon x).2 := by
  intro s l
  induction l generalizing s with
  | nil => simp [applyList]
  | cons x xs ih =>
    simp only [applyList, List.flatMap_cons]
    rw [h s canon x, ih]

/-! ## Lemmas about the layer-collection traversal -/

theorem dfsRev_any (p : LayerCollection → Bool) :
    ∀ l : List LayerCollection, (dfsRev l).any p = l.any fun t => (dfsLC t).any p := by
  intro l
  induction l with
  | nil => simp [dfsRev]
  | cons c cs ih => simp [dfsRev, List.any_append, ih, Bool.or_comm]

theorem lcContains_node (name c : String) (hv ex : Bool) (children : List LayerCollection) :
    lcContains name (.node c hv ex children)
      = ((c == name) || children.any fun t => lcContains name t) := by
  unfold lcContains
  rw [show dfsLC (.node c hv ex children) = .node c hv ex children :: dfsRev children
    from rfl]
  rw [List.any_cons, dfsRev_any]
  rfl

mutual

theorem updateLC_eq_of_not_contains (name : String) (hide : Bool) :
    ∀ t : LayerCollection, lcContains name t = false → updateLC name hide t = t
  | .node c hv ex children, h => by
    rw [lcContains_node] at h
    simp only [Bool.or_eq_false_iff, List.any_eq_false, Bool.not_eq_true] at h
    unfold updateLC
    rw [updateLCs_eq_of_not_contains name hide children h.2]
    simp [h.1]

theorem updateLCs_eq_of_not_contains (name : String) (hide : Bool) :
    ∀ l : List LayerCollection, (∀ t ∈ l, lcContains name t = false) →
      updateLCs name hide l = l
  | [], _ => by unfold updateLCs; rfl
  | c :: cs, h => by
    unfold updateLCs
    rw [updateLC_eq_of_not_contains name hide c (h c (by simp)),
        updateLCs_eq_of_not_contains name hide cs (fun t ht => h t (by simp [ht]))]

end

/-! ## Event-shape lemmas: which kinds of events each stage can emit -/

theorem nodeOverrideStep_events (dry : Bool) (s : Scene) (o : NodeInputOverride) :
    ∀ e ∈ (nodeOverrideStep dry s o).2,
      ekind e = .klog ∨ ekind e = .kmut .nodeOverride := by
  intro e he
  unfold nodeOverrideStep at he
  repeat' split at he
  all_goals simp_all [ekind]

theorem collectionVisStep_events (dry : Bool) (s : Scene) (o : CollectionVisibilityOverride) :
    ∀ e ∈ (collectionVisStep dry s o).2,
      ekind e = .klog ∨ ekind e = .kmut .collectionVis := by
  intro e he
  unfold collectionVisStep at he
  cases dry with
  | true => simp_all [ekind]
  | false =>
    simp only [Bool.false_eq_true, if_false, List.mem_append] at he
    rcases he with he | he
    · split at he <;> simp_all [ekind]
    · simp only [List.mem_flatMap, List.mem_filterMap] at he
      obtain ⟨vl, _, lc, _, hif⟩ := he
      split at hif
      · simp only [Option.some.injEq] at hif
        subst hif
        simp [ekind]
      · simp at hif

theorem objectVisStep_events (dry : Bool) (s : Scene) (o : ObjectVisibilityOverride) :
    ∀ e ∈ (objectVisStep dry s o).2,
      ekind e = .klog ∨ ekind e = .kmut .objectVis := by
  intro e he
  unfold objectVisStep at he
  repeat' split at he
  all_goals simp_all [ekind]

theorem translateStep_events (dry : Bool) (s : Scene) (t : ObjectTranslation) :
    ∀ e ∈ (translateStep dry s t).2,
      ekind e = .klog ∨ ekind e = .kmut .translation := by
  intro e he
  unfold translateStep at he
  repeat' split at he
  all_goals simp_all [ekind]

theorem addPrimitiveStep_events (dry : Bool) (s : Scene) (a : PrimitiveSpec) :
    ∀ e ∈ (addPrimitiveStep dry s a).2,
      ekind e = .klog ∨ ekind e = .kmut .addition := by
  intro e he
  unfold addPrimitiveStep at he
  cases dry with
  | true => simp_all [ekind]
  | false =>
    simp only [Bool.false_eq_true, if_false] at he
    by_cases hp : supportedPrimitives.contains (strLower a.primitive) = true
    · rw [if_neg (by simpa using hp)] at he
      repeat' split at he
      all_goals
        first
          | (simp_all [ekind]; done)
          | (simp only [List.mem_cons, List.not_mem_nil, or_false,
               List.mem_singleton] at he
             rcases he with rfl | rfl <;> simp [ekind])
    · rw [if_pos (by simpa using hp)] at he
      simp_all [ekind]

theorem configureCamera_events (dry : Bool) (nm : String) (instr : CameraInstruction)
    (s : Scene) :
    ∀ e ∈ (_configure_camera dry nm instr s).2,
      ekind e = .klog ∨ ekind e = .kmut .camera := by
  intro e he
  unfold _configure_camera at he
  repeat' split at he
  all_goals
    first
      | (simp_all [ekind]; done)
      | (simp only [List.mem_append, List.mem_cons, List.not_mem_nil, or_false,
           false_or, List.mem_singleton, or_assoc] at he
         rcases he with rfl | rfl | rfl <;> simp [ekind])

theorem reloadScene_events (load : Scene) (p : FPath) (dry : Bool) (s : Scene) :
    ∀ e ∈ (_reload_scene load p dry s).2,
      ekind e = .klog ∨ ekind e = .kopen := by
  intro e he
  unfold _reload_scene at he
  split at he
  all_goals
    first
      | (simp_all [ekind]; done)
      | (simp only [List.mem_append, List.mem_cons, List.not_mem_nil, or_false,
           false_or, List.mem_singleton] at he
         rcases he with rfl | rfl <;> simp [ekind])

theorem configureRenderSettings_events (dry : Bool) (st : RenderSettings) (p : FPath)
    (s : Scene) :
    ∀ e ∈ (_configure_render_settings dry st p s).2,
      ekind e = .klog ∨ ekind e = .kconfig := by
  intro e he
  unfold _configure_render_settings at he
  repeat' split at he
  all_goals simp_all [ekind]

theorem performRender_events (dry : Bool) (s : Scene) :
    ∀ e ∈ (_perform_render dry s).2,
      ekind e = .klog ∨ ekind e = .krender := by
  intro e he
  unfold _perform_render at he
  split at he
  all_goals simp_all [ekind]

/-! ## Dry-run and trace lemmas -/

theorem apply_node_overrides_dry (s : Scene) (l : List NodeInputOverride) :
    _apply_node_overrides true s l
      = (s, l.map fun o => .log .info ("[dry-run] Override " ++ o.material ++ "/"
          ++ o.node ++ "." ++ o.socket)) := by
  unfold _apply_node_overrides
  rw [applyList_dry (nodeOverrideStep true)
      (fun o => [Event.log .info ("[dry-run] Override " ++ o.material ++ "/"
        ++ o.node ++ "." ++ o.socket)])
      (fun s o => rfl), flatMap_singleton_map]

theorem apply_collection_visibility_dry (s : Scene) (l : List CollectionVisibilityOverride) :
    _apply_collection_visibility true s l
      = (s, l.map fun o => .log .info ("[dry-run] Would set collection " ++ o.name
          ++ " visibility -> " ++ (if o.visible then "visible" else "hidden"))) := by
  unfold _apply_collection_visibility
  rw [applyList_dry (collectionVisStep true)
      (fun o => [Event.log .info ("[dry-run] Would set collection " ++ o.name
        ++ " visibility -> " ++ (if o.visible then "visible" else "hidden"))])
      (fun s o => rfl), flatMap_singleton_map]

theorem apply_visibility_overrides_dry (s : Scene) (l : List ObjectVisibilityOverride) :
    _apply_visibility_overrides true s l
      = (s, l.map fun o => .log .info ("[dry-run] Would set " ++ o.name
          ++ " visibility -> " ++ (if o.visible then "visible" else "hidden"))) := by
  unfold _apply_visibility_overrides
  rw [applyList_dry (objectVisStep true)
      (fun o => [Event.log .info ("[dry-run] Would set " ++ o.name
        ++ " visibility -> " ++ (if o.visible then "visible" else "hidden"))])
      (fun s o => rfl), flatMap_singleton_map]

theorem translate_objects_dry (s : Scene) (l : List ObjectTranslation) :
    _translate_objects true s l
      = (s, l.map fun t => .log .info ("[dry-run] Would translate " ++ t.name)) := by
  unfold _translate_objects
  rw [applyList_dry (translateStep true)
      (fun t => [Event.log .info ("[dry-run] Would translate " ++ t.name)])
      (fun s t => rfl), flatMap_singleton_map]

theorem add_primitives_dry (s : Scene) (l : List PrimitiveSpec) :
    _add_primitives true s l
      = (s, l.map fun a => .log .info ("[dry-run] Would add " ++ a.primitive
          ++ " named " ++ (a.name.getD "None"))) := by
  unfold _add_primitives
  rw [applyList_dry (addPrimitiveStep true)
      (fun a => [Event.log .info ("[dry-run] Would add " ++ a.primitive
        ++ " named " ++ (a.name.getD "None"))])
      (fun s a => rfl), flatMap_singleton_map]

theorem variationStep_dry (load : Scene) (plan : RenderPlan) (s : Scene)
    (v : VariationConfig) :
    variationStep load plan true s v = (s, dryRunVariationTrace plan v) := by
  cases hc : v.camera with
  | none =>
    simp [variationStep, dryRunVariationTrace, _reload_scene,
      apply_node_overrides_dry, apply_collection_visibility_dry,
      apply_visibility_overrides_dry, translate_objects_dry, add_primitives_dry,
      _configure_render_settings, _perform_render, hc]
  | some cam =>
    simp [variationStep, dryRunVariationTrace, _reload_scene,
      apply_node_overrides_dry, apply_collection_visibility_dry,
      apply_visibility_overrides_dry, translate_objects_dry, add_primitives_dry,
      _configure_camera, _configure_render_settings, _perform_render, hc]



theorem execute_dry (load : Scene) (plan : RenderPlan) (s0 : Scene) :
    execute_render_plan load plan true s0
      = if plan.variations.isEmpty then
          (s0, [.log .warning "No variations defined; nothing to render."])
        else
          (s0, .mkdir plan.output_dir true true
            :: plan.variations.flatMap (dryRunVariationTrace plan)) := by
  unfold execute_render_plan
  split
  · rfl
  · rw [applyList_dry _ (dryRunVariationTrace plan)
        (fun s v => variationStep_dry load plan s v)]

theorem dryRunVariationTrace_log (plan : RenderPlan) (v : VariationConfig) :
    ∀ e ∈ dryRunVariationTrace plan v, ekind e = .klog := by
  cases hc : v.camera <;>
    (simp only [dryRunVariationTrace, hc, List.forall_mem_append,
       List.forall_mem_cons, List.forall_mem_map, List.forall_mem_singleton,
       List.forall_mem_nil, List.not_mem_nil, List.append_nil, List.nil_append]
     simp [ekind])



theorem variationStep_state_indep (load : Scene) (plan : RenderPlan)
    (v : VariationConfig) (s₁ s₂ : Scene) :
    variationStep load plan false s₁ v = variationStep load plan false s₂ v := rfl

theorem mutCat_eq_some_iff (e : Event) (c : MCat) :
    mutCat e = some c ↔ ekind e = .kmut c := by
  cases e <;> simp [mutCat, ekind]

theorem filterMap_mutCat_all {l : List Event} {c : MCat}
    (h : ∀ e ∈ l, ekind e = .klog ∨ ekind e = .kmut c) :
    ∀ x ∈ l.filterMap mutCat, x = c := by
  intro x hx
  simp only [List.mem_filterMap] at hx
  obtain ⟨e, he, hme⟩ := hx
  rw [mutCat_eq_some_iff] at hme
  rcases h e he with hk | hk <;> rw [hme] at hk <;> cases hk
  rfl

theorem pairwise_const {l : List MCat} {x : MCat} (h : ∀ c ∈ l, c = x) :
    l.Pairwise fun a b => catRank a ≤ catRank b := by
  induction l with
  | nil => exact List.Pairwise.nil
  | cons y ys ih =>
    constructor
    · intro b hb
      rw [h y (by simp), h b (by simp [hb])]
    · exact ih fun c hc => h c (by simp [hc])

theorem pairwise_rank_blocks {l₁ l₂ : List MCat} {c₁ : MCat}
    (h₁ : ∀ c ∈ l₁, c = c₁)
    (h₂ : l₂.Pairwise fun a b => catRank a ≤ catRank b)
    (hc : ∀ c ∈ l₂, catRank c₁ ≤ catRank c) :
    ((l₁ ++ l₂).Pairwise fun a b => catRank a ≤ catRank b)
    ∧ (∀ c ∈ l₁ ++ l₂, catRank c₁ ≤ catRank c) := by
  constructor
  · rw [List.pairwise_append]
    exact ⟨pairwise_const h₁, h₂, fun a ha b hb => by rw [h₁ a ha]; exact hc b hb⟩
  · intro c hcm
    rcases List.mem_append.mp hcm with hm | hm
    · rw [h₁ c hm]
    · exact hc c hm

theorem apply_node_overrides_cats (dry : Bool) (s : Scene) (l : List NodeInputOverride) :
    ∀ x ∈ (_apply_node_overrides dry s l).2.filterMap mutCat, x = MCat.nodeOverride :=
  filterMap_mutCat_all (applyList_events_forall _ (fun s x => nodeOverrideStep_events dry s x) s l)

theorem apply_collection_visibility_cats (dry : Bool) (s : Scene)
    (l : List CollectionVisibilityOverride) :
    ∀ x ∈ (_apply_collection_visibility dry s l).2.filterMap mutCat, x = MCat.collectionVis :=
  filterMap_mutCat_all (applyList_events_forall _ (fun s x => collectionVisStep_events dry s x) s l)

theorem apply_visibility_overrides_cats (dry : Bool) (s : Scene)
    (l : List ObjectVisibilityOverride) :
    ∀ x ∈ (_apply_visibility_overrides dry s l).2.filterMap mutCat, x = MCat.objectVis :=
  filterMap_mutCat_all (applyList_events_forall _ (fun s x => objectVisStep_events dry s x) s l)

theorem translate_objects_cats (dry : Bool) (s : Scene) (l : List ObjectTranslation) :
    ∀ x ∈ (_translate_objects dry s l).2.filterMap mutCat, x = MCat.translation :=
  filterMap_mutCat_all (applyList_events_forall _ (fun s x => translateStep_events dry s x) s l)

theorem add_primitives_cats (dry : Bool) (s : Scene) (l : List PrimitiveSpec) :
    ∀ x ∈ (_add_primitives dry s l).2.filterMap mutCat, x = MCat.addition :=
  filterMap_mutCat_all (applyList_events_forall _ (fun s x => addPrimitiveStep_events dry s x) s l)

theorem configure_camera_cats (dry : Bool) (nm : String) (instr : CameraInstruction)
    (s : Scene) :
    ∀ x ∈ (_configure_camera dry nm instr s).2.filterMap mutCat, x = MCat.camera :=
  filterMap_mutCat_all (configureCamera_events dry nm instr s)

theorem pairwise_sorted_append {l₁ l₂ : List MCat} {c₁ : MCat}
    (h₁ : ∀ c ∈ l₁, c = c₁)
    (h₂ : l₂.Pairwise fun a b => catRank a ≤ catRank b)
    (hb : ∀ c ∈ l₂, catRank c₁ ≤ catRank c) :
    (l₁ ++ l₂).Pairwise fun a b => catRank a ≤ catRank b := by
  rw [List.pairwise_append]
  exact ⟨pairwise_const h₁, h₂, fun a ha b hbm => by rw [h₁ a ha]; exact hb b hbm⟩

theorem bound_const {l : List MCat} {c₁ c₀ : MCat} (h : ∀ c ∈ l, c = c₁)
    (hr : catRank c₀ ≤ catRank c₁) : ∀ c ∈ l, catRank c₀ ≤ catRank c :=
  fun c hc => by rw [h c hc]; exact hr

theorem bound_append {l₁ l₂ : List MCat} {c₁ c₀ : MCat} (h₁ : ∀ c ∈ l₁, c = c₁)
    (hr : catRank c₀ ≤ catRank c₁) (hb : ∀ c ∈ l₂, catRank c₀ ≤ catRank c) :
    ∀ c ∈ l₁ ++ l₂, catRank c₀ ≤ catRank c := by
  intro c hcm
  rcases List.mem_append.mp hcm with hm | hm
  · rw [h₁ c hm]; exact hr
  · exact hb c hm

/-! ## Loader, skip-tolerance and counting lemmas -/

theorem build_variation_name (p : VariationPayload) (idx : Nat) (v : VariationConfig)
    (hb : _build_variation p idx = .ok v) :
    v.name = variationName p.name idx
    ∧ v.render_settings = p.render_settings.map _build_render_settings := by
  unfold _build_variation at hb
  simp only [bind, Except.bind, pure, Except.pure] at hb
  repeat' split at hb
  all_goals
    first
      | exact Except.noConfusion hb
      | (injection hb with hb2; rw [← hb2]; exact ⟨rfl, rfl⟩)

theorem resolve_of_absolute (cwd p : FPath) (h : p.absolute = true) :
    FPath.resolve cwd p = ⟨p.absolute, FPath.normComponents [] p.components⟩ := by
  simp [FPath.resolve, h]

theorem join_absolute (p q : FPath) (h : p.absolute = true) :
    (p.join q).absolute = true := by
  unfold FPath.join
  split <;> simp_all

theorem load_plan_ok (fs : FPath → Bool) (cwd plan_path : FPath)
    (bo oo : Option FPath) (doc : PlanDoc) (plan : RenderPlan)
    (hl : load_plan_from_file fs cwd plan_path bo oo doc = .ok plan) :
    plan.blend_path
      = (let path := FPath.resolve cwd plan_path
         let blend0 := bo.getD (doc.blend_path.getD ⟨false, []⟩)
         if blend0.absolute then blend0
         else FPath.resolve cwd (path.parent.join blend0))
    ∧ plan.output_dir
      = (let path := FPath.resolve cwd plan_path
         let output0 := oo.getD (doc.output_dir.getD ⟨false, ["render_output"]⟩)
         if output0.absolute then output0
         else FPath.resolve cwd (path.parent.join output0))
    ∧ plan.base_render_settings = _build_render_settings doc.render_settings
    ∧ plan.camera_object = doc.camera_object.getD "Camera"
    ∧ (doc.variations.enum.mapM fun p => _build_variation p.2 p.1) = .ok plan.variations := by
  unfold load_plan_from_file at hl
  simp only [bind, Except.bind, pure, Except.pure, throw, throwThe,
    Except.error] at hl
  repeat' split at hl
  all_goals
    first
      | exact Except.noConfusion hl
      | (injection hl with hl2
         rw [← hl2]
         refine ⟨by simp_all, by simp_all, rfl, rfl, by simp_all⟩)

theorem map_eq_self {α : Type} {f : α → α} {l : List α} (h : ∀ x ∈ l, f x = x) :
    l.map f = l := by
  induction l with
  | nil => rfl
  | cons x xs ih => simp [h x (by simp), ih fun y hy => h y (by simp [hy])]

theorem nodeOverrideStep_missing_material (s : Scene) (o : NodeInputOverride)
    (h : findMaterial s o.material = none) :
    nodeOverrideStep false s o
      = (s, [.log .warning ("Material " ++ o.material ++ " not found")]) := by
  simp [nodeOverrideStep, h]

theorem nodeOverrideStep_coerce_error (s : Scene) (o : NodeInputOverride)
    (dv : SocketValue) (msg : String)
    (h : socketLookup s o = some dv)
    (hc : coerceForSocket dv o.value = .error msg) :
    nodeOverrideStep false s o
      = (s, [.log .error ("Failed to override node value: " ++ msg)]) := by
  unfold socketLookup at h
  unfold nodeOverrideStep
  simp only [Bool.false_eq_true, if_false]
  repeat' split at h
  all_goals first
    | exact Option.noConfusion h
    | simp_all [hc]

theorem translateStep_missing (s : Scene) (t : ObjectTranslation)
    (h : findObject s t.name = none) :
    translateStep false s t
      = (s, [.log .warning ("Object " ++ t.name ++ " not found")]) := by
  simp [translateStep, h]

theorem objectVisStep_missing (s : Scene) (o : ObjectVisibilityOverride)
    (h : findObject s o.name = none) :
    objectVisStep false s o
      = (s, [.log .warning ("Object " ++ o.name
          ++ " not found for visibility override")]) := by
  simp [objectVisStep, h]

theorem collectionVisStep_missing (s : Scene) (o : CollectionVisibilityOverride)
    (hc : findCollection s o.name = none)
    (hlc : ∀ vl ∈ s.view_layers, lcContains o.name vl.layer_collection = false) :
    collectionVisStep false s o
      = (s, [.log .warning ("Collection " ++ o.name
          ++ " not found for visibility override")]) := by
  unfold collectionVisStep
  simp only [Bool.false_eq_true, if_false, hc]
  have hmatch : (s.view_layers.any fun vl => lcContains o.name vl.layer_collection)
      = false :=
    List.any_eq_false.mpr fun vl hvl => by simp [hlc vl hvl]
  have hmap : (s.view_layers.map fun vl =>
      ViewLayer.mk (updateLC o.name (!o.visible) vl.layer_collection))
      = s.view_layers :=
    map_eq_self fun vl hvl => by
      rw [updateLC_eq_of_not_contains _ _ _ (hlc vl hvl)]
  have hevs : (s.view_layers.flatMap fun vl =>
      (dfsLC vl.layer_collection).filterMap fun lc =>
        if lc.collectionName == o.name then
          some (Event.hostMutate .collectionVis o.name)
        else none) = [] := by
    rw [List.flatMap_eq_nil_iff]
    intro vl hvl
    rw [List.filterMap_eq_nil_iff]
    intro lc hlcm
    have := hlc vl hvl
    unfold lcContains at this
    rw [List.any_eq_false] at this
    simp [this lc hlcm]
  simp only [hmatch, hmap, hevs, Bool.false_eq_true, if_false, List.append_nil]

theorem nodeOverrideStep_missing_node (s : Scene) (o : NodeInputOverride)
    (material : BMaterial) (nodes : List BNode)
    (hm : findMaterial s o.material = some material)
    (ht : material.node_tree = some nodes)
    (hu : material.use_nodes = true)
    (hn : nodes.find? (fun n => n.name == o.node) = none) :
    nodeOverrideStep false s o
      = (s, [.log .warning ("Node " ++ o.node ++ " missing in material "
          ++ o.material)]) := by
  simp [nodeOverrideStep, hm, ht, hu, hn]

theorem nodeOverrideStep_missing_socket (s : Scene) (o : NodeInputOverride)
    (material : BMaterial) (nodes : List BNode) (node : BNode)
    (hm : findMaterial s o.material = some material)
    (ht : material.node_tree = some nodes)
    (hu : material.use_nodes = true)
    (hn : nodes.find? (fun n => n.name == o.node) = some node)
    (hi : node.inputs.find? (fun sk => sk.name == o.socket) = none)
    (ho : node.outputs.find? (fun sk => sk.name == o.socket) = none) :
    nodeOverrideStep false s o
      = (s, [.log .warning ("Socket " ++ o.socket ++ " missing on node "
          ++ o.node ++ " in material " ++ o.material)]) := by
  simp [nodeOverrideStep, hm, ht, hu, hn, hi, ho, Option.orElse]

theorem configureCamera_missing (s : Scene) (nm : String) (instr : CameraInstruction)
    (h : findObject s nm = none) :
    _configure_camera false nm instr s
      = (s, [.log .warning ("Camera object " ++ nm ++ " not found")]) := by
  simp [_configure_camera, h]

theorem addPrimitiveStep_missing_material (s : Scene) (a : PrimitiveSpec) (m : String)
    (hk : supportedPrimitives.contains (strLower a.primitive) = true)
    (hm : a.material = some m) (hne : m ≠ "")
    (hf : findMaterial s m = none) :
    addPrimitiveStep false s a
      = ((addPrimitiveStep false s { a with material := none }).1,
         (addPrimitiveStep false s { a with material := none }).2
           ++ [.log .warning ("Material " ++ m ++ " not found for new object")]) := by
  unfold addPrimitiveStep
  have hk2 : strLower a.primitive ∈ supportedPrimitives := by simpa using hk
  simp [hk2, hm, hne, hf]

theorem applyList_countP {α : Type} (step : Scene → α → Scene × List Event)
    (p : Event → Bool) (k : Nat) (h : ∀ s x, (step s x).2.countP p = k) :
    ∀ s (l : List α), (applyList step s l).2.countP p = l.length * k := by
  intro s l
  induction l generalizing s with
  | nil => simp [applyList]
  | cons x xs ih =>
    simp only [applyList, List.countP_append, h, ih, List.length_cons]
    ring

theorem isRender_false {e : Event} {c : MCat}
    (h : ekind e = .klog ∨ ekind e = .kmut c) : isRender e = false := by
  cases e <;> simp_all [ekind, isRender]

theorem isRender_false_open {e : Event} (h : ekind e = .klog ∨ ekind e = .kopen) :
    isRender e = false := by
  cases e <;> simp_all [ekind, isRender]

theorem isRender_false_config {e : Event} (h : ekind e = .klog ∨ ekind e = .kconfig) :
    isRender e = false := by
  cases e <;> simp_all [ekind, isRender]

theorem isMkdir_false {e : Event} {c : MCat}
    (h : ekind e = .klog ∨ ekind e = .kmut c) : isMkdir e = false := by
  cases e <;> simp_all [ekind, isMkdir]

theorem isMkdir_false_open {e : Event} (h : ekind e = .klog ∨ ekind e = .kopen) :
    isMkdir e = false := by
  cases e <;> simp_all [ekind, isMkdir]

theorem isMkdir_false_config {e : Event} (h : ekind e = .klog ∨ ekind e = .kconfig) :
    isMkdir e = false := by
  cases e <;> simp_all [ekind, isMkdir]

theorem isMkdir_false_render {e : Event} (h : ekind e = .klog ∨ ekind e = .krender) :
    isMkdir e = false := by
  cases e <;> simp_all [ekind, isMkdir]

theorem countP_zero_of_forall (p : Event → Bool) {l : List Event}
    (h : ∀ e ∈ l, p e = false) : l.countP p = 0 :=
  List.countP_eq_zero.mpr fun e he => by simp [h e he]

theorem apply_node_overrides_countP (p : Event → Bool) (dry : Bool) (s : Scene)
    (l : List NodeInputOverride)
    (hp : ∀ e, ekind e = .klog ∨ ekind e = .kmut .nodeOverride → p e = false) :
    (_apply_node_overrides dry s l).2.countP p = 0 :=
  countP_zero_of_forall p fun e he =>
    hp e (applyList_events_forall _ (fun s x => nodeOverrideStep_events dry s x) s l e he)

theorem apply_collection_visibility_countP (p : Event → Bool) (dry : Bool) (s : Scene)
    (l : List CollectionVisibilityOverride)
    (hp : ∀ e, ekind e = .klog ∨ ekind e = .kmut .collectionVis → p e = false) :
    (_apply_collection_visibility dry s l).2.countP p = 0 :=
  countP_zero_of_forall p fun e he =>
    hp e (applyList_events_forall _ (fun s x => collectionVisStep_events dry s x) s l e he)

theorem apply_visibility_overrides_countP (p : Event → Bool) (dry : Bool) (s : Scene)
    (l : List ObjectVisibilityOverride)
    (hp : ∀ e, ekind e = .klog ∨ ekind e = .kmut .objectVis → p e = false) :
    (_apply_visibility_overrides dry s l).2.countP p = 0 :=
  countP_zero_of_forall p fun e he =>
    hp e (applyList_events_forall _ (fun s x => objectVisStep_events dry s x) s l e he)

theorem translate_objects_countP (p : Event → Bool) (dry : Bool) (s : Scene)
    (l : List ObjectTranslation)
    (hp : ∀ e, ekind e = .klog ∨ ekind e = .kmut .translation → p e = false) :
    (_translate_objects dry s l).2.countP p = 0 :=
  countP_zero_of_forall p fun e he =>
    hp e (applyList_events_forall _ (fun s x => translateStep_events dry s x) s l e he)

theorem add_primitives_countP (p : Event → Bool) (dry : Bool) (s : Scene)
    (l : List PrimitiveSpec)
    (hp : ∀ e, ekind e = .klog ∨ ekind e = .kmut .addition → p e = false) :
    (_add_primitives dry s l).2.countP p = 0 :=
  countP_zero_of_forall p fun e he =>
    hp e (applyList_events_forall _ (fun s x => addPrimitiveStep_events dry s x) s l e he)

theorem configure_camera_countP (p : Event → Bool) (dry : Bool) (nm : String)
    (instr : CameraInstruction) (s : Scene)
    (hp : ∀ e, ekind e = .klog ∨ ekind e = .kmut .camera → p e = false) :
    (_configure_camera dry nm instr s).2.countP p = 0 :=
  countP_zero_of_forall p fun e he => hp e (configureCamera_events dry nm instr s e he)

theorem reload_scene_countP (p : Event → Bool) (load : Scene) (q : FPath) (dry : Bool)
    (s : Scene) (hp : ∀ e, ekind e = .klog ∨ ekind e = .kopen → p e = false) :
    (_reload_scene load q dry s).2.countP p = 0 :=
  countP_zero_of_forall p fun e he => hp e (reloadScene_events load q dry s e he)

theorem configure_render_settings_countP (p : Event → Bool) (dry : Bool)
    (st : RenderSettings) (q : FPath) (s : Scene)
    (hp : ∀ e, ekind e = .klog ∨ ekind e = .kconfig → p e = false) :
    (_configure_render_settings dry st q s).2.countP p = 0 :=
  countP_zero_of_forall p fun e he =>
    hp e (configureRenderSettings_events dry st q s e he)

theorem variationStep_render_count (load : Scene) (plan : RenderPlan) (s : Scene)
    (v : VariationConfig) :
    (variationStep load plan false s v).2.countP isRender = 1 := by
  cases hc : v.camera with
  | none =>
    simp only [variationStep, hc, List.countP_append, _perform_render,
      Bool.false_eq_true, if_false,
      apply_node_overrides_countP isRender false _ _ (fun e h => isRender_false h),
      apply_collection_visibility_countP isRender false _ _ (fun e h => isRender_false h),
      apply_visibility_overrides_countP isRender false _ _ (fun e h => isRender_false h),
      translate_objects_countP isRender false _ _ (fun e h => isRender_false h),
      add_primitives_countP isRender false _ _ (fun e h => isRender_false h),
      reload_scene_countP isRender load plan.blend_path false _ (fun e h => isRender_false_open h),
      configure_render_settings_countP isRender false _ _ _ (fun e h => isRender_false_config h)]
    simp [isRender, List.countP_cons]
  | some cam =>
    simp only [variationStep, hc, List.countP_append, _perform_render,
      Bool.false_eq_true, if_false,
      apply_node_overrides_countP isRender false _ _ (fun e h => isRender_false h),
      apply_collection_visibility_countP isRender false _ _ (fun e h => isRender_false h),
      apply_visibility_overrides_countP isRender false _ _ (fun e h => isRender_false h),
      translate_objects_countP isRender false _ _ (fun e h => isRender_false h),
      add_primitives_countP isRender false _ _ (fun e h => isRender_false h),
      configure_camera_countP isRender false _ _ _ (fun e h => isRender_false h),
      reload_scene_countP isRender load plan.blend_path false _ (fun e h => isRender_false_open h),
      configure_render_settings_countP isRender false _ _ _ (fun e h => isRender_false_config h)]
    simp [isRender, List.countP_cons]

theorem variationStep_mkdir_count (load : Scene) (plan : RenderPlan) (dry : Bool)
    (s : Scene) (v : VariationConfig) :
    (variationStep load plan dry s v).2.countP isMkdir = 0 := by
  cases hc : v.camera with
  | none =>
    simp only [variationStep, hc, List.countP_append,
      apply_node_overrides_countP isMkdir dry _ _ (fun e h => isMkdir_false h),
      apply_collection_visibility_countP isMkdir dry _ _ (fun e h => isMkdir_false h),
      apply_visibility_overrides_countP isMkdir dry _ _ (fun e h => isMkdir_false h),
      translate_objects_countP isMkdir dry _ _ (fun e h => isMkdir_false h),
      add_primitives_countP isMkdir dry _ _ (fun e h => isMkdir_false h),
      reload_scene_countP isMkdir load plan.blend_path dry _ (fun e h => isMkdir_false_open h),
      configure_render_settings_countP isMkdir dry _ _ _ (fun e h => isMkdir_false_config h),
      countP_zero_of_forall isMkdir (fun e he => isMkdir_false_render (performRender_events dry _ e he))]
    simp [isMkdir, List.countP_cons]
  | some cam =>
    simp only [variationStep, hc, List.countP_append,
      apply_node_overrides_countP isMkdir dry _ _ (fun e h => isMkdir_false h),
      apply_collection_visibility_countP isMkdir dry _ _ (fun e h => isMkdir_false h),
      apply_visibility_overrides_countP isMkdir dry _ _ (fun e h => isMkdir_false h),
      translate_objects_countP isMkdir dry _ _ (fun e h => isMkdir_false h),
      add_primitives_countP isMkdir dry _ _ (fun e h => isMkdir_false h),
      configure_camera_countP isMkdir dry _ _ _ (fun e h => isMkdir_false h),
      reload_scene_countP isMkdir load plan.blend_path dry _ (fun e h => isMkdir_false_open h),
      configure_render_settings_countP isMkdir dry _ _ _ (fun e h => isMkdir_false_config h),
      countP_zero_of_forall isMkdir (fun e he => isMkdir_false_render (performRender_events dry _ e he))]
    simp [isMkdir, List.countP_cons]

theorem execute_render_count (load : Scene) (plan : RenderPlan) (s0 : Scene) :
    (execute_render_plan load plan false s0).2.countP isRender
      = plan.variations.length := by
  unfold execute_render_plan
  split
  · rename_i h
    rw [List.isEmpty_iff] at h
    simp [h, isRender]
  · show (Event.mkdir plan.output_dir true true
        :: (applyList (fun s v => variationStep load plan false s v) s0 plan.variations).2).countP isRender = _
    rw [List.countP_cons,
      applyList_countP _ isRender 1 (fun s v => variationStep_render_count load plan s v)]
    simp [isRender]

theorem findObject_setObj (s : Scene) (nm : String) (f : BObject → BObject)
    (hf : ∀ ob, (f ob).name = ob.name) :
    findObject (setObj s nm f) nm = (findObject s nm).map f := by
  unfold findObject setObj
  show List.find? _ (updateFirst _ f s.objects) = _
  induction s.objects with
  | nil => rfl
  | cons ob obs ih =>
    unfold updateFirst
    by_cases h : (ob.name == nm) = true
    · rw [if_pos h]
      rw [List.find?_cons_of_pos _ (by simp [hf, h]),
          List.find?_cons_of_pos _ (by simp [h])]
      rfl
    · rw [if_neg h]
      rw [List.find?_cons_of_neg _ (by simp_all [hf]),
          List.find?_cons_of_neg _ (by simp_all), ih]


/-! ## The claims -/

/-- **C1**: for every plan with at least one variation, processing a
variation always begins by reloading the plan's base scene file before
any of that variation's mutations are applied, so no mutation state from
a previous variation is ever visible to a later one.  Formally: the
per-variation step is independent of the incoming host state (conjunct
1); its trace opens with the variation header, the loading log and the
`open_mainfile` host call before anything else (conjunct 2); and the
whole run's trace is the concatenation of per-variation traces each
computed from the freshly loaded base scene (conjunct 3). -/
theorem claim_c1 (load : Scene) (plan : RenderPlan) (s0 : Scene) :
    (∀ v s₁ s₂, variationStep load plan false s₁ v = variationStep load plan false s₂ v)
    ∧ (∀ v s, (variationStep load plan false s v).2.take 3
        = [.log .info ("=== Variation: " ++ v.name ++ " ==="),
           .log .info ("Loading blend file " ++ plan.blend_path.toStr),
           .openMainfile plan.blend_path])
    ∧ (plan.variations ≠ [] →
        (execute_render_plan load plan false s0).2
          = .mkdir plan.output_dir true true
              :: plan.variations.flatMap fun v => (variationStep load plan false load v).2) := by
  refine ⟨fun v s₁ s₂ => rfl, ?_, ?_⟩
  · intro v s
    simp [variationStep, _reload_scene]
  · intro h
    unfold execute_render_plan
    rw [if_neg (by simpa [List.isEmpty_iff] using h)]
    show Event.mkdir plan.output_dir true true
        :: (applyList (fun s v => variationStep load plan false s v) s0 plan.variations).2
      = _
    rw [@applyList_state_indep _ (fun s v => variationStep load plan false s v)
        (fun s₁ s₂ x => rfl) load s0 plan.variations]

/-- Witness for `claim_c1`: the two-variation `samplePlan`, each
variation's trace computed from the freshly loaded scene. -/
theorem claim_c1_witness :
    (execute_render_plan {} samplePlan false {}).2
      = .mkdir samplePlan.output_dir true true
          :: samplePlan.variations.flatMap fun v =>
              (variationStep {} samplePlan false {} v).2 :=
  (claim_c1 {} samplePlan {}).2.2 (by decide)

/-- **C2**: for every variation, the non-dry-run applier performs the
mutation categories in the fixed order node-socket overrides →
collection visibility → object visibility → translations → primitive
additions → camera: the category ranks of the host-mutation events of a
variation's trace are monotonically non-decreasing (conjunct 1), and no
camera mutation occurs when the variation has no camera instruction
(conjunct 2). -/
theorem claim_c2 (load : Scene) (plan : RenderPlan) (s : Scene) (v : VariationConfig) :
    (((variationStep load plan false s v).2.filterMap mutCat).Pairwise
      fun a b => catRank a ≤ catRank b)
    ∧ (v.camera = none →
        MCat.camera ∉ (variationStep load plan false s v).2.filterMap mutCat) := by
  cases hc : v.camera with
  | none =>
    simp only [variationStep, _reload_scene, _configure_render_settings,
      _perform_render, hc, Bool.false_eq_true, if_false, List.filterMap_append,
      List.filterMap_cons, List.filterMap_nil, mutCat, List.nil_append,
      List.append_nil]
    constructor
    · simp only [List.append_assoc]
      apply pairwise_sorted_append (apply_node_overrides_cats false _ _)
      · apply pairwise_sorted_append (apply_collection_visibility_cats false _ _)
        · apply pairwise_sorted_append (apply_visibility_overrides_cats false _ _)
          · apply pairwise_sorted_append (translate_objects_cats false _ _)
            · exact pairwise_const (add_primitives_cats false _ _)
            · exact bound_const (add_primitives_cats false _ _) (by decide)
          · apply bound_append (translate_objects_cats false _ _) (by decide)
            exact bound_const (add_primitives_cats false _ _) (by decide)
        · apply bound_append (apply_visibility_overrides_cats false _ _) (by decide)
          apply bound_append (translate_objects_cats false _ _) (by decide)
          exact bound_const (add_primitives_cats false _ _) (by decide)
      · apply bound_append (apply_collection_visibility_cats false _ _) (by decide)
        apply bound_append (apply_visibility_overrides_cats false _ _) (by decide)
        apply bound_append (translate_objects_cats false _ _) (by decide)
        exact bound_const (add_primitives_cats false _ _) (by decide)
    · intro _ hmem
      simp only [List.mem_append] at hmem
      rcases hmem with (((h | h) | h) | h) | h
      · exact absurd (apply_node_overrides_cats false load v.node_overrides _ h) (by decide)
      · exact absurd (apply_collection_visibility_cats false _ v.collection_visibility _ h) (by decide)
      · exact absurd (apply_visibility_overrides_cats false _ v.visibility _ h) (by decide)
      · exact absurd (translate_objects_cats false _ v.translations _ h) (by decide)
      · exact absurd (add_primitives_cats false _ v.additions _ h) (by decide)
  | some cam =>
    constructor
    · simp only [variationStep, _reload_scene, _configure_render_settings,
        _perform_render, hc, Bool.false_eq_true, if_false, List.filterMap_append,
        List.filterMap_cons, List.filterMap_nil, mutCat, List.nil_append,
        List.append_nil, List.append_assoc]
      apply pairwise_sorted_append (apply_node_overrides_cats false _ _)
      · apply pairwise_sorted_append (apply_collection_visibility_cats false _ _)
        · apply pairwise_sorted_append (apply_visibility_overrides_cats false _ _)
          · apply pairwise_sorted_append (translate_objects_cats false _ _)
            · apply pairwise_sorted_append (add_primitives_cats false _ _)
              · exact pairwise_const (configure_camera_cats false _ _ _)
              · exact bound_const (configure_camera_cats false _ _ _) (by decide)
            · apply bound_append (add_primitives_cats false _ _) (by decide)
              exact bound_const (configure_camera_cats false _ _ _) (by decide)
          · apply bound_append (translate_objects_cats false _ _) (by decide)
            apply bound_append (add_primitives_cats false _ _) (by decide)
            exact bound_const (configure_camera_cats false _ _ _) (by decide)
        · apply bound_append (apply_visibility_overrides_cats false _ _) (by decide)
          apply bound_append (translate_objects_cats false _ _) (by decide)
          apply bound_append (add_primitives_cats false _ _) (by decide)
          exact bound_const (configure_camera_cats false _ _ _) (by decide)
      · apply bound_append (apply_collection_visibility_cats false _ _) (by decide)
        apply bound_append (apply_visibility_overrides_cats false _ _) (by decide)
        apply bound_append (translate_objects_cats false _ _) (by decide)
        apply bound_append (add_primitives_cats false _ _) (by decide)
        exact bound_const (configure_camera_cats false _ _ _) (by decide)
    · intro hn
      exact Option.noConfusion hn

/-- Witness for `claim_c2`: a camera-less variation performs no camera
mutation. -/
theorem claim_c2_witness :
    MCat.camera ∉ (variationStep {} samplePlan false {}
        { name := "v1", translations := [{ name := "Cube", offset := (1, 2, 3) }] }).2.filterMap
          mutCat :=
  (claim_c2 {} samplePlan {}
    { name := "v1", translations := [{ name := "Cube", offset := (1, 2, 3) }] }).2 rfl

/-- **C3, counterexample**: a variation whose `render_settings` mapping
supplies only `samples` does *not* inherit the plan's base engine
(`BLENDER_EEVEE`): the built settings fall back to the documented default
`CYCLES`, refuting field-by-field inheritance from the plan's base. -/
theorem claim_c3_counterexample :
    _build_variation { render_settings := some { samples := some 64 } } 0
      = .ok { name := "variation_000", render_settings := some { samples := 64 } }
    ∧ (effectiveRenderSettings
        { blend_path := ⟨true, ["scene.blend"]⟩
          output_dir := ⟨true, ["out"]⟩
          base_render_settings := { engine := "BLENDER_EEVEE" } }
        { name := "variation_000", render_settings := some { samples := 64 } }).engine
      = "CYCLES"
    ∧ ({ engine := "BLENDER_EEVEE" } : RenderSettings).engine = "BLENDER_EEVEE"
    ∧ ("CYCLES" : String) ≠ "BLENDER_EEVEE" := by
  exact ⟨rfl, rfl, rfl, by decide⟩

/-- **C3, amended**: a variation's `render_settings` mapping is merged
field-by-field over the module-level documented defaults
(`DEFAULT_RENDER_SETTINGS`), not over the plan's base settings; only a
variation with no (or falsy) `render_settings` uses the plan's base
settings unchanged. -/
theorem claim_c3_amended :
    (∀ p : RenderSettingsPayload,
       _build_render_settings p = specMergeRenderSettings DEFAULT_RENDER_SETTINGS p)
    ∧ (∀ (plan : RenderPlan) (v : VariationConfig), v.render_settings = none →
        effectiveRenderSettings plan v = plan.base_render_settings)
    ∧ (∀ (plan : RenderPlan) (v : VariationConfig) (rs : RenderSettings),
        v.render_settings = some rs → effectiveRenderSettings plan v = rs)
    ∧ (∀ (p : VariationPayload) (idx : Nat) (v : VariationConfig),
        _build_variation p idx = .ok v →
        v.render_settings = p.render_settings.map _build_render_settings) := by
  refine ⟨fun p => rfl, ?_, ?_, ?_⟩
  · intro plan v h
    simp [effectiveRenderSettings, h]
  · intro plan v rs h
    simp [effectiveRenderSettings, h]
  · intro p idx v hb
    exact (build_variation_name p idx v hb).2

/-- Witness for `claim_c3_amended` at concrete inputs. -/
theorem claim_c3_witness :
    effectiveRenderSettings samplePlan { name := "v2" } = samplePlan.base_render_settings
    ∧ ({ name := "variation_000", render_settings := some { samples := 64 } }
          : VariationConfig).render_settings
        = (some { samples := some 64 } : Option RenderSettingsPayload).map
            _build_render_settings :=
  ⟨claim_c3_amended.2.1 samplePlan { name := "v2" } rfl,
   claim_c3_amended.2.2.2 { render_settings := some { samples := some 64 } } 0
     { name := "variation_000", render_settings := some { samples := 64 } } rfl⟩

/-- **C4, counterexample**: a declared format `BMP` does not produce the
extension `.bmp`: formats outside the recognized set fall back to
`.png`. -/
theorem claim_c4_counterexample :
    _build_render_path ⟨true, ["out"]⟩ "v" { file_format := "BMP" }
        = ⟨true, ["out", "v.png"]⟩
    ∧ (⟨true, ["out", "v.png"]⟩ : FPath) ≠ ⟨true, ["out", "v.bmp"]⟩ := by
  exact ⟨by decide, by decide⟩

/-- **C4, amended**: the render path is
`<output_dir>/<sanitized name><ext>` where the extension is `.exr` for
(lowercased) `open_exr`/`exr`, a dot followed by the lowercased format
for `png`/`jpeg`/`jpg`/`tiff`, and the fallback `.png` for every other
format string. -/
theorem claim_c4_amended :
    ∀ (dir : FPath) (name : String) (settings : RenderSettings),
      _build_render_path dir name settings
        = dir.child (sanitize_filename name ++ specSuffix settings.file_format) := by
  intro dir name settings
  unfold _build_render_path specSuffix
  simp only [List.mem_cons, List.mem_singleton, List.not_mem_nil, or_false]
  split_ifs <;> first | rfl | tauto

/-- **C5, counterexample**: in a document whose variations are a named
entry followed by two unnamed entries, the second unnamed variation is
named `variation_002`, not `variation_001`: the zero-padded index is the
entry's position in the whole list, so it is *not* independent of the
named variations around it. -/
theorem claim_c5_counterexample :
    (([({ name := some "a" } : VariationPayload), {}, {}].enum.mapM
        fun p => _build_variation p.2 p.1).map fun l => l.map fun v => v.name)
      = .ok ["a", "variation_001", "variation_002"]
    ∧ ("variation_002" : String) ≠ "variation_001" := by
  exact ⟨rfl, by decide⟩

/-- **C5, amended**: every variation without a (truthy) name receives the
generated name `variation_<zero-padded-index>` where the index is the
entry's position in the document's whole `variations` list; in
particular an unnamed variation at position 1 is named `variation_001`
regardless of how many of the earlier entries are named. -/
theorem claim_c5_amended :
    ∀ (p : VariationPayload) (idx : Nat) (v : VariationConfig),
      (p.name = none ∨ p.name = some "") →
      _build_variation p idx = .ok v →
      v.name = "variation_" ++ pad3 idx := by
  intro p idx v hn hb
  rw [(build_variation_name p idx v hb).1]
  rcases hn with h | h <;> simp [variationName, h]

/-- Witness for `claim_c5_amended`: the unnamed payload at index 5. -/
theorem claim_c5_witness :
    ({ name := "variation_005" } : VariationConfig).name = "variation_" ++ pad3 5 :=
  claim_c5_amended {} 5 { name := "variation_005" } (Or.inl rfl) rfl

/-- **C6**: every mutation whose named target does not exist — the
material, node or socket of a node-socket override, the object of a
translation or visibility override, the collection of a collection
override, the camera object of a camera instruction, the material
assigned to a new primitive — and every value-coercion failure in a
node-socket override, is skipped with exactly one logged warning/error
and no other effect (conjuncts 1-9: the scene is unchanged, except that
a primitive whose material is missing is still added, materialless);
the remaining mutations of the list still run unchanged (conjuncts
10-11); and every variation of the plan still issues its render call
(conjunct 12). -/
theorem claim_c6 :
    (∀ (s : Scene) (o : NodeInputOverride), findMaterial s o.material = none →
      nodeOverrideStep false s o
        = (s, [.log .warning ("Material " ++ o.material ++ " not found")]))
    ∧ (∀ (s : Scene) (o : NodeInputOverride) (material : BMaterial)
        (nodes : List BNode),
        findMaterial s o.material = some material →
        material.node_tree = some nodes →
        material.use_nodes = true →
        nodes.find? (fun n => n.name == o.node) = none →
        nodeOverrideStep false s o
          = (s, [.log .warning ("Node " ++ o.node ++ " missing in material "
              ++ o.material)]))
    ∧ (∀ (s : Scene) (o : NodeInputOverride) (material : BMaterial)
        (nodes : List BNode) (node : BNode),
        findMaterial s o.material = some material →
        material.node_tree = some nodes →
        material.use_nodes = true →
        nodes.find? (fun n => n.name == o.node) = some node →
        node.inputs.find? (fun sk => sk.name == o.socket) = none →
        node.outputs.find? (fun sk => sk.name == o.socket) = none →
        nodeOverrideStep false s o
          = (s, [.log .warning ("Socket " ++ o.socket ++ " missing on node "
              ++ o.node ++ " in material " ++ o.material)]))
    ∧ (∀ (s : Scene) (o : NodeInputOverride) (dv : SocketValue) (msg : String),
        socketLookup s o = some dv → coerceForSocket dv o.value = .error msg →
        nodeOverrideStep false s o
          = (s, [.log .error ("Failed to override node value: " ++ msg)]))
    ∧ (∀ (s : Scene) (t : ObjectTranslation), findObject s t.name = none →
        translateStep false s t
          = (s, [.log .warning ("Object " ++ t.name ++ " not found")]))
    ∧ (∀ (s : Scene) (o : ObjectVisibilityOverride), findObject s o.name = none →
        objectVisStep false s o
          = (s, [.log .warning ("Object " ++ o.name
              ++ " not found for visibility override")]))
    ∧ (∀ (s : Scene) (o : CollectionVisibilityOverride),
        findCollection s o.name = none →
        (∀ vl ∈ s.view_layers, lcContains o.name vl.layer_collection = false) →
        collectionVisStep false s o
          = (s, [.log .warning ("Collection " ++ o.name
              ++ " not found for visibility override")]))
    ∧ (∀ (s : Scene) (nm : String) (instr : CameraInstruction),
        findObject s nm = none →
        _configure_camera false nm instr s
          = (s, [.log .warning ("Camera object " ++ nm ++ " not found")]))
    ∧ (∀ (s : Scene) (a : PrimitiveSpec) (m : String),
        supportedPrimitives.contains (strLower a.primitive) = true →
        a.material = some m → m ≠ "" → findMaterial s m = none →
        addPrimitiveStep false s a
          = ((addPrimitiveStep false s { a with material := none }).1,
             (addPrimitiveStep false s { a with material := none }).2
               ++ [.log .warning ("Material " ++ m ++ " not found for new object")]))
    ∧ (∀ (s : Scene) (o : NodeInputOverride) (rest : List NodeInputOverride),
        findMaterial s o.material = none →
        _apply_node_overrides false s (o :: rest)
          = ((_apply_node_overrides false s rest).1,
             .log .warning ("Material " ++ o.material ++ " not found")
               :: (_apply_node_overrides false s rest).2))
    ∧ (∀ (s : Scene) (t : ObjectTranslation) (rest : List ObjectTranslation),
        findObject s t.name = none →
        _translate_objects false s (t :: rest)
          = ((_translate_objects false s rest).1,
             .log .warning ("Object " ++ t.name ++ " not found")
               :: (_translate_objects false s rest).2))
    ∧ (∀ (load : Scene) (plan : RenderPlan) (s0 : Scene),
        (execute_render_plan load plan false s0).2.countP isRender
          = plan.variations.length) := by
  refine ⟨nodeOverrideStep_missing_material, nodeOverrideStep_missing_node,
    nodeOverrideStep_missing_socket, nodeOverrideStep_coerce_error,
    translateStep_missing, objectVisStep_missing, collectionVisStep_missing,
    configureCamera_missing, addPrimitiveStep_missing_material,
    ?_, ?_, execute_render_count⟩
  · intro s o rest h
    show applyList (nodeOverrideStep false) s (o :: rest) = _
    simp [applyList, _apply_node_overrides, nodeOverrideStep_missing_material s o h]
  · intro s t rest h
    show applyList (translateStep false) s (t :: rest) = _
    simp [applyList, _translate_objects, translateStep_missing s t h]

/-- Witness for `claim_c6` at concrete inputs: a missing material, node
and socket in node overrides, a concrete coercion failure, a missing
translation object, a missing camera object, a missing material for a
new primitive, and the concrete two-variation `samplePlan`. -/
theorem claim_c6_witness :
    nodeOverrideStep false {}
        { material := "M", node := "N", socket := "S", value := .atom (.num 1) }
      = ({}, [.log .warning ("Material " ++ "M" ++ " not found")])
    ∧ nodeOverrideStep false sampleScene
        { material := "Mat", node := "Zzz", socket := "S", value := .atom (.num 1) }
      = (sampleScene,
         [.log .warning ("Node " ++ "Zzz" ++ " missing in material " ++ "Mat")])
    ∧ nodeOverrideStep false sampleScene
        { material := "Mat", node := "N", socket := "Zzz", value := .atom (.num 1) }
      = (sampleScene,
         [.log .warning ("Socket " ++ "Zzz" ++ " missing on node " ++ "N"
            ++ " in material " ++ "Mat")])
    ∧ nodeOverrideStep false sampleScene
        { material := "Mat", node := "N", socket := "S", value := .atom .other }
      = (sampleScene,
         [.log .error ("Failed to override node value: "
            ++ "could not convert value to float")])
    ∧ translateStep false {} { name := "Ghost", offset := (1, 0, 0) }
      = ({}, [.log .warning ("Object " ++ "Ghost" ++ " not found")])
    ∧ _configure_camera false "Camera" {} {}
      = ({}, [.log .warning ("Camera object " ++ "Camera" ++ " not found")])
    ∧ addPrimitiveStep false {} { primitive := "cube", name := none, material := some "Ghost" }
      = ((addPrimitiveStep false {} { primitive := "cube", name := none, material := none }).1,
         (addPrimitiveStep false {} { primitive := "cube", name := none, material := none }).2
           ++ [.log .warning ("Material " ++ "Ghost" ++ " not found for new object")])
    ∧ (execute_render_plan {} samplePlan false {}).2.countP isRender = 2 :=
  ⟨claim_c6.1 {} { material := "M", node := "N", socket := "S", value := .atom (.num 1) } rfl,
   claim_c6.2.1 sampleScene
     { material := "Mat", node := "Zzz", socket := "S", value := .atom (.num 1) }
     sampleMaterial [sampleNode] rfl rfl rfl rfl,
   claim_c6.2.2.1 sampleScene
     { material := "Mat", node := "N", socket := "Zzz", value := .atom (.num 1) }
     sampleMaterial [sampleNode] sampleNode rfl rfl rfl rfl rfl rfl,
   claim_c6.2.2.2.1 sampleScene
     { material := "Mat", node := "N", socket := "S", value := .atom .other }
     (.scalar 1) "could not convert value to float" rfl rfl,
   claim_c6.2.2.2.2.1 {} { name := "Ghost", offset := (1, 0, 0) } rfl,
   claim_c6.2.2.2.2.2.2.2.1 {} "Camera" {} rfl,
   claim_c6.2.2.2.2.2.2.2.2.1 {}
     { primitive := "cube", name := none, material := some "Ghost" } "Ghost"
     (by decide) rfl (by decide) rfl,
   (claim_c6.2.2.2.2.2.2.2.2.2.2.2 {} samplePlan {}).trans (by decide)⟩

/-- **C7**: executing any plan with `dry_run` enabled leaves the host
state untouched (conjunct 1), performs no host-application call at all —
no reload, no mutation, no render configuration, no render (conjunct 2)
— and, for a non-empty plan, logs exactly one descriptive line per
mutation of each variation, in the same fixed pipeline order as the
non-dry-run path (conjunct 3, via the explicit expected trace
`dryRunVariationTrace`). -/
theorem claim_c7 (load : Scene) (plan : RenderPlan) (s0 : Scene) :
    (execute_render_plan load plan true s0).1 = s0
    ∧ (∀ e ∈ (execute_render_plan load plan true s0).2, hostCall e = false)
    ∧ (plan.variations ≠ [] →
        (execute_render_plan load plan true s0).2
          = .mkdir plan.output_dir true true
              :: plan.variations.flatMap (dryRunVariationTrace plan)) := by
  refine ⟨?_, ?_, ?_⟩
  · rw [execute_dry]
    split <;> rfl
  · rw [execute_dry]
    split
    · intro e he
      simp only [List.mem_singleton] at he
      subst he
      rfl
    · intro e he
      simp only [List.mem_cons] at he
      rcases he with rfl | he
      · rfl
      · simp only [List.mem_flatMap] at he
        obtain ⟨v, _, hv⟩ := he
        simp [hostCall, dryRunVariationTrace_log plan v e hv]
  · intro h
    rw [execute_dry, if_neg (by simpa [List.isEmpty_iff] using h)]

/-- Witness for `claim_c7`: the dry-run trace of the two-variation
`samplePlan`. -/
theorem claim_c7_witness :
    (execute_render_plan {} samplePlan true {}).2
      = .mkdir samplePlan.output_dir true true
          :: samplePlan.variations.flatMap (dryRunVariationTrace samplePlan) :=
  (claim_c7 {} samplePlan {}).2.2 (by decide)

/-- **C8**: relative paths in a plan document resolve against the
document's own directory, not the process working directory: for an
absolute document path the loaded plan's paths do not depend on the
working directory at all (conjunct 1), and a document at
`/a/b/plan.yaml` declaring `blend_path: ../scene.blend` resolves it to
`/a/scene.blend` (conjunct 2) and `output_dir: ../out` to `/a/out`
(conjunct 3), for every working directory. -/
theorem claim_c8 :
    (∀ (fs : FPath → Bool) (cwd₁ cwd₂ plan_path : FPath) (bo oo : Option FPath)
       (doc : PlanDoc) (plan₁ plan₂ : RenderPlan),
       plan_path.absolute = true →
       load_plan_from_file fs cwd₁ plan_path bo oo doc = .ok plan₁ →
       load_plan_from_file fs cwd₂ plan_path bo oo doc = .ok plan₂ →
       plan₁.blend_path = plan₂.blend_path ∧ plan₁.output_dir = plan₂.output_dir)
    ∧ (∀ (fs : FPath → Bool) (cwd : FPath) (doc : PlanDoc) (plan : RenderPlan),
        doc.blend_path = some ⟨false, ["..", "scene.blend"]⟩ →
        load_plan_from_file fs cwd ⟨true, ["a", "b", "plan.yaml"]⟩ none none doc
          = .ok plan →
        plan.blend_path = ⟨true, ["a", "scene.blend"]⟩)
    ∧ (∀ (fs : FPath → Bool) (cwd : FPath) (doc : PlanDoc) (plan : RenderPlan),
        doc.output_dir = some ⟨false, ["..", "out"]⟩ →
        load_plan_from_file fs cwd ⟨true, ["a", "b", "plan.yaml"]⟩ none none doc
          = .ok plan →
        plan.output_dir = ⟨true, ["a", "out"]⟩) := by
  refine ⟨?_, ?_, ?_⟩
  · intro fs cwd₁ cwd₂ plan_path bo oo doc plan₁ plan₂ habs h₁ h₂
    have e₁ := load_plan_ok _ _ _ _ _ _ _ h₁
    have e₂ := load_plan_ok _ _ _ _ _ _ _ h₂
    constructor
    · rw [e₁.1, e₂.1]
      simp only [resolve_of_absolute _ _ habs]
      split
      · rfl
      · rw [resolve_of_absolute _ _ (join_absolute _ _ (by simp [FPath.parent, habs])),
            resolve_of_absolute _ _ (join_absolute _ _ (by simp [FPath.parent, habs]))]
    · rw [e₁.2.1, e₂.2.1]
      simp only [resolve_of_absolute _ _ habs]
      split
      · rfl
      · rw [resolve_of_absolute _ _ (join_absolute _ _ (by simp [FPath.parent, habs])),
            resolve_of_absolute _ _ (join_absolute _ _ (by simp [FPath.parent, habs]))]
  · intro fs cwd doc plan hdoc hl
    have e := load_plan_ok _ _ _ _ _ _ _ hl
    rw [e.1]
    simp [hdoc, FPath.resolve, FPath.join, FPath.parent, FPath.normComponents]
  · intro fs cwd doc plan hdoc hl
    have e := load_plan_ok _ _ _ _ _ _ _ hl
    rw [e.2.1]
    simp [hdoc, FPath.resolve, FPath.join, FPath.parent, FPath.normComponents]

/-- Witness for `claim_c8`: the concrete document of the claim, loaded
with an all-existing filesystem from an arbitrary working directory. -/
theorem claim_c8_witness :
    ({ blend_path := ⟨true, ["a", "scene.blend"]⟩
       output_dir := ⟨true, ["a", "b", "render_output"]⟩
       base_render_settings := {}
       camera_object := "Camera"
       variations := [] } : RenderPlan).blend_path
      = ⟨true, ["a", "scene.blend"]⟩ :=
  claim_c8.2.1 (fun _ => true) ⟨true, []⟩
    { blend_path := some ⟨false, ["..", "scene.blend"]⟩ }
    { blend_path := ⟨true, ["a", "scene.blend"]⟩
      output_dir := ⟨true, ["a", "b", "render_output"]⟩
      base_render_settings := {}
      camera_object := "Camera"
      variations := [] }
    rfl rfl

/-- **C9, counterexample**: a camera instruction whose `lens_mm` field is
present but equal to `0` is *not* applied: Python's truthiness test
`if instruction.lens_mm` skips a zero lens, so the camera object's data
keeps its previous lens of 50. -/
theorem claim_c9_counterexample :
    _configure_camera false "Camera" { lens_mm := some 0 } camScene = (camScene, [])
    ∧ ((findObject camScene "Camera").map fun ob => ob.data.map fun d => d.lens)
        = some (some 50)
    ∧ (50 : Rat) ≠ 0 := by
  refine ⟨rfl, rfl, by norm_num⟩

/-- **C9, amended**: on a found camera object, location and rotation are
applied exactly when present, each independently of the other fields;
the lens is applied only when it is present *and non-zero* and the
object's type is `"CAMERA"` with a non-null data block. -/
theorem claim_c9_amended (s : Scene) (nm : String) (instr : CameraInstruction)
    (ob : BObject) (hf : findObject s nm = some ob) :
    findObject ((_configure_camera false nm instr s).1) nm
      = some { ob with
          location := instr.location.getD ob.location
          rotation_euler := instr.rotation_euler.getD ob.rotation_euler
          data :=
            if (instr.lens_mm.getD 0) != 0 && ob.objType == "CAMERA"
                && ob.data.isSome then
              ob.data.map fun d => { d with lens := instr.lens_mm.getD 0 }
            else ob.data } := by
  unfold _configure_camera
  simp only [Bool.false_eq_true, if_false, hf]
  cases hl : instr.location <;> cases hr : instr.rotation_euler <;>
    cases hm : instr.lens_mm <;>
    simp only [hl, hr, hm, Option.getD_some, Option.getD_none]
  all_goals try split
  all_goals simp_all [findObject_setObj]

/-- Witness for `claim_c9_amended`: location and a non-zero lens applied
to the concrete `camScene`. -/
theorem claim_c9_witness :
    findObject ((_configure_camera false "Camera"
        { location := some (1, 2, 3), lens_mm := some 35 } camScene).1) "Camera"
      = some { name := "Camera"
               location := (1, 2, 3)
               objType := "CAMERA"
               data := some { lens := 35 } } := by
  have h := claim_c9_amended camScene "Camera"
    { location := some (1, 2, 3), lens_mm := some 35 }
    { name := "Camera", objType := "CAMERA", data := some { lens := 50 } } rfl
  exact h.trans (by decide)

/-- **C10**: for every plan with at least one variation — dry run or not
— the run's very first effect is creating the output directory with
`parents=True, exist_ok=True`, and it happens exactly once (conjunct 1);
for a plan with zero variations the output directory is never created
(conjunct 2). -/
theorem claim_c10 (load : Scene) (plan : RenderPlan) (dry : Bool) (s0 : Scene) :
    (plan.variations ≠ [] →
      (execute_render_plan load plan dry s0).2.head?
          = some (.mkdir plan.output_dir true true)
      ∧ (execute_render_plan load plan dry s0).2.countP isMkdir = 1)
    ∧ (plan.variations = [] →
        (execute_render_plan load plan dry s0).2.countP isMkdir = 0) := by
  constructor
  · intro h
    unfold execute_render_plan
    rw [if_neg (by simpa [List.isEmpty_iff] using h)]
    refine ⟨rfl, ?_⟩
    show (Event.mkdir plan.output_dir true true
        :: (applyList (fun s v => variationStep load plan dry s v) s0 plan.variations).2).countP
          isMkdir = 1
    rw [List.countP_cons,
      applyList_countP _ isMkdir 0 (fun s v => variationStep_mkdir_count load plan dry s v)]
    simp [isMkdir]
  · intro h
    unfold execute_render_plan
    rw [if_pos (by simp [h])]
    simp [isMkdir]

/-- Witness for `claim_c10`: the two-variation `samplePlan` in dry-run
mode still creates the output directory, first and exactly once. -/
theorem claim_c10_witness :
    (execute_render_plan {} samplePlan true {}).2.head?
        = some (.mkdir samplePlan.output_dir true true)
    ∧ (execute_render_plan {} samplePlan true {}).2.countP isMkdir = 1 :=
  (claim_c10 {} samplePlan true {}).1 (by decide)

end LasergridRender
